import Mathlib

/-!
# Verification of the CKAN plugin registry and permission-label provider

Shallow embedding of `ckan/lib/plugins.py`: the process-wide registry mapping
dataset- and group-type strings to behaviour providers (registration,
fallback slots, lookup, reset), and the `DefaultPermissionLabels` provider
deriving access labels for datasets and actors.

Python dicts over string keys are modelled as association lists with
`dictLookup`/`dictInsert` (insert overwrites the existing binding for a key).
Python's raise-on-error registration procedures are modelled as functions
returning the (possibly partially mutated, as the module globals would be)
state together with an optional error.
-/

/-- Lookup in an association list modelling a Python `dict.get`. -/
def dictLookup {α : Type} : List (String × α) → String → Option α
  | [], _ => none
  | (k', v') :: rest, k => if k' = k then some v' else dictLookup rest k

/-- Insertion modelling Python `d[k] = v`: overwrite the binding if the key
is present, append it otherwise. -/
def dictInsert {α : Type} : List (String × α) → String → α → List (String × α)
  | [], k, v => [(k, v)]
  | (k', v') :: rest, k, v =>
    if k' = k then (k, v) :: rest else (k', v') :: dictInsert rest k v

theorem dictLookup_dictInsert_self {α : Type} (d : List (String × α)) (k : String) (v : α) :
    dictLookup (dictInsert d k v) k = some v := by
  induction d with
  | nil => simp [dictInsert, dictLookup]
  | cons hd tl ih =>
    obtain ⟨k', v'⟩ := hd
    by_cases h : k' = k
    · simp [dictInsert, dictLookup, h]
    · simp [dictInsert, dictLookup, h, ih]

theorem dictLookup_dictInsert_ne {α : Type} (d : List (String × α)) (k k' : String) (v : α)
    (h : k' ≠ k) : dictLookup (dictInsert d k v) k' = dictLookup d k' := by
  induction d with
  | nil => simp [dictInsert, dictLookup, Ne.symm h]
  | cons hd tl ih =>
    obtain ⟨k0, v0⟩ := hd
    by_cases h0 : k0 = k
    · subst h0
      simp [dictInsert, dictLookup, Ne.symm h]
    · simp [dictInsert, dictLookup, h0, ih]

/-! ## String label facts

The permission labels are the strings `"public"`, `"creator-<id>"`,
`"member-<id>"` and `"collaborator-<id>"`.  The lemmas below show the four
families are pairwise disjoint and injective in the id, by comparing the
first two characters of the underlying character lists. -/

theorem str_data_append (s t : String) : (s ++ t).data = s.data ++ t.data := by
  cases s; cases t; rfl

theorem str_append_left_cancel {p a b : String} (h : p ++ a = p ++ b) : a = b := by
  have h2 : (p ++ a).data = (p ++ b).data := by rw [h]
  rw [str_data_append, str_data_append] at h2
  have h3 : a.data = b.data := List.append_cancel_left h2
  cases a; cases b; exact congrArg String.mk h3

theorem str_ne_of_take2 {s t : String} (h : s.data.take 2 ≠ t.data.take 2) : s ≠ t := by
  intro he
  exact h (by rw [he])

theorem take2_append (p a : String) (h2 : 2 ≤ p.data.length) :
    (p ++ a).data.take 2 = p.data.take 2 := by
  rw [str_data_append]
  exact List.take_append_of_le_length h2

theorem public_ne_creator (a : String) : "public" ≠ "creator-" ++ a := by
  apply str_ne_of_take2
  rw [take2_append "creator-" a (by decide)]
  decide

theorem public_ne_member (a : String) : "public" ≠ "member-" ++ a := by
  apply str_ne_of_take2
  rw [take2_append "member-" a (by decide)]
  decide

theorem public_ne_collaborator (a : String) : "public" ≠ "collaborator-" ++ a := by
  apply str_ne_of_take2
  rw [take2_append "collaborator-" a (by decide)]
  decide

theorem creator_ne_member (a b : String) : "creator-" ++ a ≠ "member-" ++ b := by
  apply str_ne_of_take2
  rw [take2_append "creator-" a (by decide), take2_append "member-" b (by decide)]
  decide

theorem creator_ne_collaborator (a b : String) : "creator-" ++ a ≠ "collaborator-" ++ b := by
  apply str_ne_of_take2
  rw [take2_append "creator-" a (by decide), take2_append "collaborator-" b (by decide)]
  decide

theorem member_ne_collaborator (a b : String) : "member-" ++ a ≠ "collaborator-" ++ b := by
  apply str_ne_of_take2
  rw [take2_append "member-" a (by decide), take2_append "collaborator-" b (by decide)]
  decide

/-- `charsPrefix pre l` decides whether the character list `pre` starts `l`. -/
def charsPrefix : List Char → List Char → Bool
  | [], _ => true
  | _ :: _, [] => false
  | c :: cs, d :: ds => c == d && charsPrefix cs ds

/-- A label of the `"member-<org id>"` family. -/
def memberLabel (l : String) : Bool := charsPrefix "member-".data l.data

/-- A label of the `"creator-<user id>"` family. -/
def creatorLabel (l : String) : Bool := charsPrefix "creator-".data l.data

theorem memberLabel_member (a : String) : memberLabel ("member-" ++ a) = true := by
  obtain ⟨la⟩ := a
  rfl

theorem creatorLabel_creator (a : String) : creatorLabel ("creator-" ++ a) = true := by
  obtain ⟨la⟩ := a
  rfl

theorem memberLabel_creator (a : String) : memberLabel ("creator-" ++ a) = false := by
  obtain ⟨la⟩ := a
  rfl

theorem creatorLabel_member (a : String) : creatorLabel ("member-" ++ a) = false := by
  obtain ⟨la⟩ := a
  rfl

theorem memberLabel_collaborator (a : String) : memberLabel ("collaborator-" ++ a) = false := by
  obtain ⟨la⟩ := a
  rfl

theorem creatorLabel_collaborator (a : String) : creatorLabel ("collaborator-" ++ a) = false := by
  obtain ⟨la⟩ := a
  rfl

theorem memberLabel_public : memberLabel "public" = false := rfl

theorem creatorLabel_public : creatorLabel "public" = false := rfl

/-! ## DefaultPermissionLabels (`ckan/lib/plugins.py`, class `DefaultPermissionLabels`)

`get_dataset_labels` and `get_user_dataset_labels` are translated directly.
The collaborators of `ckan.authz.check_config_permission
('allow_dataset_collaborators')`, `organization_list_for_user` and
`package_collaborator_list_for_user` are parameters gathered in `AuthzEnv`. -/

/-- The fields of a package object that `get_dataset_labels` inspects. -/
structure Dataset where
  id : String
  state : String
  «private» : Bool
  owner_org : Option String
  creator_user_id : String
deriving DecidableEq

/-- The field of a user object that `get_user_dataset_labels` inspects. -/
structure User where
  id : String
deriving DecidableEq

/-- The external collaborators consulted by `DefaultPermissionLabels`:
the `allow_dataset_collaborators` config permission, the ids of the
organizations a user has `read` permission on, and the ids of the packages a
user collaborates on. -/
structure AuthzEnv where
  allow_dataset_collaborators : Bool
  organization_list_for_user : String → List String
  package_collaborator_list_for_user : String → List String

/-- Python truthiness of the `owner_org` field: `None` and the empty string
are falsy. -/
def pyTruthy : Option String → Bool
  | none => false
  | some s => !(s == "")

/-- `DefaultPermissionLabels.get_dataset_labels`. -/
def get_dataset_labels (env : AuthzEnv) (dataset_obj : Dataset) : List String :=
  if dataset_obj.state = "active" ∧ dataset_obj.«private» = false then
    ["public"]
  else
    (if env.allow_dataset_collaborators then ["collaborator-" ++ dataset_obj.id] else []) ++
      (if pyTruthy dataset_obj.owner_org then
        ["member-" ++ dataset_obj.owner_org.getD ""]
      else
        ["creator-" ++ dataset_obj.creator_user_id])

/-- `DefaultPermissionLabels.get_user_dataset_labels`; `none` is an absent
(anonymous) user object. -/
def get_user_dataset_labels (env : AuthzEnv) (user_obj : Option User) : List String :=
  match user_obj with
  | none => ["public"]
  | some u =>
    ["public", "creator-" ++ u.id]
      ++ (env.organization_list_for_user u.id).map (fun o => "member-" ++ o)
      ++ (if env.allow_dataset_collaborators then
            (env.package_collaborator_list_for_user u.id).map (fun d => "collaborator-" ++ d)
          else [])

theorem mem_get_dataset_labels (env : AuthzEnv) (ds : Dataset) (l : String) :
    l ∈ get_dataset_labels env ds ↔
      (if ds.state = "active" ∧ ds.«private» = false then l = "public"
       else
        (env.allow_dataset_collaborators = true ∧ l = "collaborator-" ++ ds.id)
          ∨ (pyTruthy ds.owner_org = true ∧ l = "member-" ++ ds.owner_org.getD "")
          ∨ (pyTruthy ds.owner_org = false ∧ l = "creator-" ++ ds.creator_user_id)) := by
  unfold get_dataset_labels
  by_cases hpub : ds.state = "active" ∧ ds.«private» = false
  · simp [hpub]
  · cases hco : env.allow_dataset_collaborators <;>
      cases horg : pyTruthy ds.owner_org <;>
      simp [hpub, hco, horg]

theorem mem_get_user_dataset_labels (env : AuthzEnv) (u : User) (l : String) :
    l ∈ get_user_dataset_labels env (some u) ↔
      (l = "public" ∨ l = "creator-" ++ u.id
        ∨ (∃ o ∈ env.organization_list_for_user u.id, l = "member-" ++ o)
        ∨ (env.allow_dataset_collaborators = true
            ∧ ∃ d ∈ env.package_collaborator_list_for_user u.id, l = "collaborator-" ++ d)) := by
  unfold get_user_dataset_labels
  cases hco : env.allow_dataset_collaborators <;> simp [hco, eq_comm]

theorem public_mem_user_labels (env : AuthzEnv) (u : Option User) :
    "public" ∈ get_user_dataset_labels env u := by
  cases u <;> simp [get_user_dataset_labels]

/-- Modelled from the spec's words (the visibility side of the label
invariant, §4.3 / claim sources): a dataset is visible to an actor under
direct field inspection when it is public and active (everyone), or — for a
present actor — when it is a non-public org-owned dataset and the actor is a
member of the owning org, or a non-public org-less dataset and the actor is
its creator, or the collaborator feature is enabled and the actor
collaborates on the dataset. -/
def visible_by_direct_inspection (env : AuthzEnv) (user_obj : Option User) (ds : Dataset) :
    Prop :=
  (ds.state = "active" ∧ ds.«private» = false)
  ∨ (∃ u, user_obj = some u ∧
      ((¬(ds.state = "active" ∧ ds.«private» = false) ∧ pyTruthy ds.owner_org = true
          ∧ ds.owner_org.getD "" ∈ env.organization_list_for_user u.id)
        ∨ (¬(ds.state = "active" ∧ ds.«private» = false) ∧ pyTruthy ds.owner_org = false
          ∧ u.id = ds.creator_user_id)
        ∨ (env.allow_dataset_collaborators = true
          ∧ ds.id ∈ env.package_collaborator_list_for_user u.id)))

/-- Claim C2: for every dataset and every actor (including the anonymous one),
visibility under direct field inspection holds iff the intersection of
`get_dataset_labels` and `get_user_dataset_labels` is non-empty. -/
theorem visibility_iff_label_intersection (env : AuthzEnv) (u : Option User) (ds : Dataset) :
    visible_by_direct_inspection env u ds ↔
      ∃ l, l ∈ get_dataset_labels env ds ∧ l ∈ get_user_dataset_labels env u := by
  constructor
  · intro hv
    rcases hv with hpub | ⟨u0, hu0, hcase⟩
    · refine ⟨"public", ?_, public_mem_user_labels env u⟩
      rw [mem_get_dataset_labels]
      simp [hpub]
    · subst hu0
      rcases hcase with ⟨hnp, horg, hmem⟩ | ⟨hnp, horg, hid⟩ | ⟨hallow, hcol⟩
      · refine ⟨"member-" ++ ds.owner_org.getD "", ?_, ?_⟩
        · rw [mem_get_dataset_labels, if_neg hnp]
          exact Or.inr (Or.inl ⟨horg, rfl⟩)
        · rw [mem_get_user_dataset_labels]
          exact Or.inr (Or.inr (Or.inl ⟨_, hmem, rfl⟩))
      · refine ⟨"creator-" ++ ds.creator_user_id, ?_, ?_⟩
        · rw [mem_get_dataset_labels, if_neg hnp]
          exact Or.inr (Or.inr ⟨horg, rfl⟩)
        · rw [mem_get_user_dataset_labels]
          exact Or.inr (Or.inl (by rw [hid]))
      · by_cases hp : ds.state = "active" ∧ ds.«private» = false
        · refine ⟨"public", ?_, public_mem_user_labels env _⟩
          rw [mem_get_dataset_labels]
          simp [hp]
        · refine ⟨"collaborator-" ++ ds.id, ?_, ?_⟩
          · rw [mem_get_dataset_labels, if_neg hp]
            exact Or.inl ⟨hallow, rfl⟩
          · rw [mem_get_user_dataset_labels]
            exact Or.inr (Or.inr (Or.inr ⟨hallow, ds.id, hcol, rfl⟩))
  · rintro ⟨l, hd, hu⟩
    rw [mem_get_dataset_labels] at hd
    by_cases hp : ds.state = "active" ∧ ds.«private» = false
    · exact Or.inl hp
    · rw [if_neg hp] at hd
      cases u with
      | none =>
        have hl : l = "public" := by simpa [get_user_dataset_labels] using hu
        subst hl
        rcases hd with ⟨_, h⟩ | ⟨_, h⟩ | ⟨_, h⟩
        · exact absurd h (public_ne_collaborator _)
        · exact absurd h (public_ne_member _)
        · exact absurd h (public_ne_creator _)
      | some u0 =>
        rw [mem_get_user_dataset_labels] at hu
        rcases hd with ⟨hallow, hl⟩ | ⟨horg, hl⟩ | ⟨horg, hl⟩
        · subst hl
          rcases hu with h | h | ⟨o, _, h⟩ | ⟨_, d, hdm, h⟩
          · exact absurd h.symm (public_ne_collaborator _)
          · exact absurd h.symm (creator_ne_collaborator _ _)
          · exact absurd h.symm (member_ne_collaborator _ _)
          · refine Or.inr ⟨u0, rfl, Or.inr (Or.inr ⟨hallow, ?_⟩)⟩
            rw [str_append_left_cancel h]
            exact hdm
        · subst hl
          rcases hu with h | h | ⟨o, ho, h⟩ | ⟨_, d, _, h⟩
          · exact absurd h.symm (public_ne_member _)
          · exact absurd h.symm (creator_ne_member _ _)
          · refine Or.inr ⟨u0, rfl, Or.inl ⟨hp, horg, ?_⟩⟩
            rw [str_append_left_cancel h]
            exact ho
          · exact absurd h (member_ne_collaborator _ _)
        · subst hl
          rcases hu with h | h | ⟨o, _, h⟩ | ⟨_, d, _, h⟩
          · exact absurd h.symm (public_ne_creator _)
          · exact Or.inr ⟨u0, rfl, Or.inr (Or.inl ⟨hp, horg, (str_append_left_cancel h).symm⟩)⟩
          · exact absurd h (creator_ne_member _ _)
          · exact absurd h (creator_ne_collaborator _ _)

/-- Claim C3: `get_dataset_labels` returns exactly `{"public"}` for an active
non-private dataset; otherwise exactly the optional collaborator seed plus
exactly one of a member label (owning organization present) or a creator
label (no owning organization) — and a member label and a creator label never
co-occur in the result. -/
theorem get_dataset_labels_spec (env : AuthzEnv) (ds : Dataset) :
    (∀ l, l ∈ get_dataset_labels env ds ↔
      (if ds.state = "active" ∧ ds.«private» = false then l = "public"
       else
        (env.allow_dataset_collaborators = true ∧ l = "collaborator-" ++ ds.id)
          ∨ (pyTruthy ds.owner_org = true ∧ l = "member-" ++ ds.owner_org.getD "")
          ∨ (pyTruthy ds.owner_org = false ∧ l = "creator-" ++ ds.creator_user_id)))
    ∧ (((get_dataset_labels env ds).any memberLabel
         && (get_dataset_labels env ds).any creatorLabel) = false) := by
  refine ⟨mem_get_dataset_labels env ds, ?_⟩
  unfold get_dataset_labels
  by_cases hp : ds.state = "active" ∧ ds.«private» = false
  · simp [hp, memberLabel_public, creatorLabel_public]
  · cases hco : env.allow_dataset_collaborators <;> cases horg : pyTruthy ds.owner_org <;>
      simp [hp, hco, horg, memberLabel_member, memberLabel_creator, memberLabel_collaborator,
        creatorLabel_creator, creatorLabel_member, creatorLabel_collaborator]

/-- Claim C4: `get_user_dataset_labels` returns exactly `["public"]` for an absent
(anonymous) actor; for a present actor it returns exactly "public", the
actor's creator label, one member label per organization the actor has read
permission on, and — only with the collaborator feature enabled — one
collaborator label per dataset the actor collaborates on. -/
theorem get_user_dataset_labels_spec (env : AuthzEnv) :
    get_user_dataset_labels env none = ["public"]
    ∧ ∀ u l, l ∈ get_user_dataset_labels env (some u) ↔
        (l = "public" ∨ l = "creator-" ++ u.id
          ∨ (∃ o ∈ env.organization_list_for_user u.id, l = "member-" ++ o)
          ∨ (env.allow_dataset_collaborators = true
              ∧ ∃ d ∈ env.package_collaborator_list_for_user u.id,
                  l = "collaborator-" ++ d)) :=
  ⟨rfl, fun u l => mem_get_user_dataset_labels env u l⟩

/-! ## The plugin registry (`ckan/lib/plugins.py`, module level)

A provider is modelled by the attributes the registration code probes:
`is_fallback()`, `package_types()`, `group_types()`, `group_controller()`
(`none` models the `AttributeError` branch), the optional `is_organization`
attribute, and — for the `isinstance` tests against the default form
classes — whether the provider's class inherits `DefaultDatasetForm`,
`DefaultGroupForm` or `DefaultOrganizationForm`. -/

structure Provider where
  name : String
  is_fallback : Bool
  package_types : List String
  group_types : List String
  group_controller : Option String
  is_organization : Option Bool
  instDefaultDatasetForm : Bool
  instDefaultGroupForm : Bool
  instDefaultOrganizationForm : Bool
deriving DecidableEq

/-- The `ValueError`s the registration functions raise. -/
inductive RegError where
  | duplicatePackageType (t : String)
  | multipleDatasetFallback
  | duplicateGroupType (t : String)
  | multipleGroupFallback
  | multipleOrganizationFallback
deriving DecidableEq

/-- The module-level globals of `ckan/lib/plugins.py`. -/
structure RegistryState where
  package_plugins : List (String × Provider)
  default_package_plugin : Option Provider
  group_plugins : List (String × Provider)
  default_group_plugin : Option Provider
  default_organization_plugin : Option Provider
  group_controllers : List (String × String)
deriving DecidableEq

/-- The initial module state: empty tables, no fallback set. -/
def initialRegistry : RegistryState :=
  { package_plugins := []
    default_package_plugin := none
    group_plugins := []
    default_group_plugin := none
    default_organization_plugin := none
    group_controllers := [] }

/-- The instance `DefaultDatasetForm()` built by `set_default_package_plugin`. -/
def DefaultDatasetFormInst : Provider :=
  { name := "DefaultDatasetForm"
    is_fallback := false
    package_types := []
    group_types := []
    group_controller := none
    is_organization := none
    instDefaultDatasetForm := true
    instDefaultGroupForm := false
    instDefaultOrganizationForm := false }

/-- The instance `DefaultGroupForm()` built by `set_default_group_plugin`;
its `group_controller()` returns `'group'`. -/
def DefaultGroupFormInst : Provider :=
  { name := "DefaultGroupForm"
    is_fallback := false
    package_types := []
    group_types := []
    group_controller := some "group"
    is_organization := none
    instDefaultDatasetForm := false
    instDefaultGroupForm := true
    instDefaultOrganizationForm := false }

/-- The instance `DefaultOrganizationForm()` built by
`set_default_group_plugin`; the class extends `DefaultGroupForm`, so it is an
instance of both. -/
def DefaultOrganizationFormInst : Provider :=
  { name := "DefaultOrganizationForm"
    is_fallback := false
    package_types := []
    group_types := []
    group_controller := some "organization"
    is_organization := none
    instDefaultDatasetForm := false
    instDefaultGroupForm := true
    instDefaultOrganizationForm := true }

/-- `reset_package_plugins`. -/
def reset_package_plugins (s : RegistryState) : RegistryState :=
  { s with default_package_plugin := none, package_plugins := [] }

/-- `reset_group_plugins`. -/
def reset_group_plugins (s : RegistryState) : RegistryState :=
  { s with
    default_group_plugin := none
    default_organization_plugin := none
    group_plugins := []
    group_controllers := [] }

/-- `lookup_package_plugin`: the registered plugin for the type, the fallback
when the type is absent or unknown.  The source only reads the globals, so
the state is returned unchanged alongside the result. -/
def lookup_package_plugin (s : RegistryState) (package_type : Option String) :
    Option Provider × RegistryState :=
  match package_type with
  | none => (s.default_package_plugin, s)
  | some t =>
    match dictLookup s.package_plugins t with
    | some p => (some p, s)
    | none => (s.default_package_plugin, s)

/-- `lookup_group_plugin`: absent type → group fallback; unknown type →
organization fallback exactly when the type is `"organization"`, group
fallback otherwise. -/
def lookup_group_plugin (s : RegistryState) (group_type : Option String) :
    Option Provider × RegistryState :=
  match group_type with
  | none => (s.default_group_plugin, s)
  | some t =>
    match dictLookup s.group_plugins t with
    | some p => (some p, s)
    | none =>
      (if t = "organization" then s.default_organization_plugin else s.default_group_plugin, s)

/-- `lookup_group_controller`: `_group_controllers.get(group_type)`. -/
def lookup_group_controller (s : RegistryState) (group_type : Option String) :
    Option String × RegistryState :=
  match group_type with
  | none => (none, s)
  | some t => (dictLookup s.group_controllers t, s)

/-- `set_default_package_plugin`. -/
def set_default_package_plugin (s : RegistryState) : RegistryState :=
  match s.default_package_plugin with
  | none => { s with default_package_plugin := some DefaultDatasetFormInst }
  | some _ => s

/-- The fallback-claim step of `register_package_plugins` for one plugin:
raise unless the occupied slot holds an instance of `DefaultDatasetForm`,
then overwrite the slot. -/
def package_fallback_step (s : RegistryState) (p : Provider) :
    RegistryState × Option RegError :=
  if p.is_fallback then
    match s.default_package_plugin with
    | some cur =>
      if cur.instDefaultDatasetForm then
        ({ s with default_package_plugin := some p }, none)
      else (s, some RegError.multipleDatasetFallback)
    | none => ({ s with default_package_plugin := some p }, none)
  else (s, none)

/-- The `for package_type in plugin.package_types()` loop: raise on a type
already owned, insert otherwise.  On a raise the entries inserted so far
remain, as the module globals would. -/
def insert_package_types (p : Provider) :
    RegistryState → List String → RegistryState × Option RegError
  | s, [] => (s, none)
  | s, t :: ts =>
    match dictLookup s.package_plugins t with
    | some _ => (s, some (RegError.duplicatePackageType t))
    | none =>
      insert_package_types p
        { s with package_plugins := dictInsert s.package_plugins t p } ts

/-- The plugin loop of `register_package_plugins`. -/
def register_package_list : RegistryState → List Provider → RegistryState × Option RegError
  | s, [] => (s, none)
  | s, p :: ps =>
    match package_fallback_step s p with
    | (s1, some e) => (s1, some e)
    | (s1, none) =>
      match insert_package_types p s1 p.package_types with
      | (s2, some e) => (s2, some e)
      | (s2, none) => register_package_list s2 ps

/-- `register_package_plugins`, over the ordered providers the plugin
discovery yields. -/
def register_package_plugins (s : RegistryState) (ps : List Provider) :
    RegistryState × Option RegError :=
  match register_package_list s ps with
  | (s1, none) => (set_default_package_plugin s1, none)
  | r => r

/-- `group_controller` probed from the plugin, `'group'` on `AttributeError`. -/
def group_controller_of (p : Provider) : String :=
  p.group_controller.getD "group"

/-- The `is_organization` attribute when present, else
`group_controller == 'organization'`. -/
def is_organization_of (p : Provider) : Bool :=
  p.is_organization.getD (group_controller_of p == "organization")

/-- The fallback-claim step of `register_group_plugins` for one plugin,
dispatched on the organization flag into the two fallback slots. -/
def group_fallback_step (s : RegistryState) (p : Provider) :
    RegistryState × Option RegError :=
  if p.is_fallback then
    if is_organization_of p then
      match s.default_organization_plugin with
      | some cur =>
        if cur.instDefaultOrganizationForm then
          ({ s with default_organization_plugin := some p }, none)
        else (s, some RegError.multipleOrganizationFallback)
      | none => ({ s with default_organization_plugin := some p }, none)
    else
      match s.default_group_plugin with
      | some cur =>
        if cur.instDefaultGroupForm then
          ({ s with default_group_plugin := some p }, none)
        else (s, some RegError.multipleGroupFallback)
      | none => ({ s with default_group_plugin := some p }, none)
  else (s, none)

/-- The `for group_type in plugin.group_types()` loop: raise on a type
already owned, insert into both the plugin table and the controller table
otherwise. -/
def insert_group_types (p : Provider) (gc : String) :
    RegistryState → List String → RegistryState × Option RegError
  | s, [] => (s, none)
  | s, t :: ts =>
    match dictLookup s.group_plugins t with
    | some _ => (s, some (RegError.duplicateGroupType t))
    | none =>
      insert_group_types p gc
        { s with
          group_plugins := dictInsert s.group_plugins t p
          group_controllers := dictInsert s.group_controllers t gc } ts

/-- The plugin loop of `register_group_plugins`. -/
def register_group_list : RegistryState → List Provider → RegistryState × Option RegError
  | s, [] => (s, none)
  | s, p :: ps =>
    match group_fallback_step s p with
    | (s1, some e) => (s1, some e)
    | (s1, none) =>
      match insert_group_types p (group_controller_of p) s1 p.group_types with
      | (s2, some e) => (s2, some e)
      | (s2, none) => register_group_list s2 ps

/-- `if k not in d: d[k] = k` — the controller-table seeding statements of
`set_default_group_plugin`. -/
def seedController (c : List (String × String)) (k : String) : List (String × String) :=
  match dictLookup c k with
  | none => dictInsert c k k
  | some _ => c

/-- `set_default_group_plugin`: fill the two fallback slots with fresh
default instances and seed the controller table's `'group'` and
`'organization'` entries, each only when still unset.  The four statements
of the source touch independent state except the two controller seeds,
which compose in order. -/
def set_default_group_plugin (s : RegistryState) : RegistryState :=
  { s with
    default_group_plugin :=
      match s.default_group_plugin with
      | none => some DefaultGroupFormInst
      | some p => some p
    default_organization_plugin :=
      match s.default_organization_plugin with
      | none => some DefaultOrganizationFormInst
      | some p => some p
    group_controllers :=
      seedController (seedController s.group_controllers "group") "organization" }

/-- `register_group_plugins`. -/
def register_group_plugins (s : RegistryState) (ps : List Provider) :
    RegistryState × Option RegError :=
  match register_group_list s ps with
  | (s1, none) => (set_default_group_plugin s1, none)
  | r => r

/-! ## Registration lemmas, dataset axis -/

theorem package_fallback_step_plugins (s : RegistryState) (p : Provider) :
    (package_fallback_step s p).1.package_plugins = s.package_plugins := by
  unfold package_fallback_step
  by_cases hf : p.is_fallback
  · simp only [hf, if_true]
    cases hd : s.default_package_plugin with
    | none => rfl
    | some cur => by_cases hc : cur.instDefaultDatasetForm <;> simp [hc]
  · simp [hf]

theorem package_fallback_step_no_err (s : RegistryState) (p : Provider)
    (h : ∀ cur, s.default_package_plugin = some cur → cur.instDefaultDatasetForm = true) :
    (package_fallback_step s p).2 = none := by
  unfold package_fallback_step
  by_cases hf : p.is_fallback
  · simp only [hf, if_true]
    cases hd : s.default_package_plugin with
    | none => rfl
    | some cur => simp [h cur hd]
  · simp [hf]

theorem package_fallback_step_default (s : RegistryState) (p : Provider)
    (h : (package_fallback_step s p).2 = none) :
    (package_fallback_step s p).1.default_package_plugin
      = if p.is_fallback then some p else s.default_package_plugin := by
  unfold package_fallback_step at *
  by_cases hf : p.is_fallback
  · simp only [hf, if_true] at *
    cases hd : s.default_package_plugin with
    | none => rfl
    | some cur =>
      rw [hd] at h
      by_cases hc : cur.instDefaultDatasetForm
      · simp [hc]
      · simp [hc] at h
  · simp [hf]

theorem insert_package_types_default (p : Provider) (s : RegistryState) (ts : List String) :
    (insert_package_types p s ts).1.default_package_plugin = s.default_package_plugin := by
  induction ts generalizing s with
  | nil => rfl
  | cons t ts ih =>
    unfold insert_package_types
    cases h : dictLookup s.package_plugins t with
    | some _ => rfl
    | none => exact ih _

theorem insert_package_types_lookup_notmem (p : Provider) (s : RegistryState)
    (ts : List String) (t : String) (h : t ∉ ts) :
    dictLookup (insert_package_types p s ts).1.package_plugins t
      = dictLookup s.package_plugins t := by
  induction ts generalizing s with
  | nil => rfl
  | cons t0 ts ih =>
    have ht0 : t ≠ t0 := fun he => h (he ▸ List.mem_cons_self t0 ts)
    have hts : t ∉ ts := fun hm => h (List.mem_cons_of_mem t0 hm)
    unfold insert_package_types
    cases h0 : dictLookup s.package_plugins t0 with
    | some _ => rfl
    | none =>
      rw [ih _ hts]
      exact dictLookup_dictInsert_ne _ _ _ _ ht0

theorem insert_package_types_mono (p : Provider) (s : RegistryState) (ts : List String)
    (k : String) (v : Provider) (h : dictLookup s.package_plugins k = some v) :
    dictLookup (insert_package_types p s ts).1.package_plugins k = some v := by
  induction ts generalizing s with
  | nil => exact h
  | cons t0 ts ih =>
    unfold insert_package_types
    cases h0 : dictLookup s.package_plugins t0 with
    | some _ => exact h
    | none =>
      refine ih _ ?_
      have hk : k ≠ t0 := by
        intro he
        rw [he, h0] at h
        exact Option.noConfusion h
      show dictLookup (dictInsert s.package_plugins t0 p) k = some v
      rw [dictLookup_dictInsert_ne _ _ _ _ hk]
      exact h

theorem insert_package_types_ok (p : Provider) (s : RegistryState) (ts : List String)
    (hnd : ts.Nodup) (habs : ∀ t ∈ ts, dictLookup s.package_plugins t = none) :
    (insert_package_types p s ts).2 = none
    ∧ ∀ t ∈ ts, dictLookup (insert_package_types p s ts).1.package_plugins t = some p := by
  induction ts generalizing s with
  | nil => exact ⟨rfl, fun t ht => absurd ht (List.not_mem_nil t)⟩
  | cons t0 ts ih =>
    have h0 : dictLookup s.package_plugins t0 = none := habs t0 (List.mem_cons_self t0 ts)
    have hnd' : ts.Nodup := hnd.of_cons
    have ht0 : t0 ∉ ts := by
      intro hm
      exact (List.nodup_cons.mp hnd).1 hm
    have habs' : ∀ t ∈ ts,
        dictLookup (dictInsert s.package_plugins t0 p) t = none := by
      intro t ht
      have : t ≠ t0 := fun he => ht0 (he ▸ ht)
      rw [dictLookup_dictInsert_ne _ _ _ _ this]
      exact habs t (List.mem_cons_of_mem t0 ht)
    unfold insert_package_types
    rw [h0]
    obtain ⟨hok, hmem⟩ :=
      ih { s with package_plugins := dictInsert s.package_plugins t0 p } hnd' habs'
    refine ⟨hok, ?_⟩
    intro t ht
    rcases List.mem_cons.mp ht with he | hm
    · subst he
      exact insert_package_types_mono p _ ts t p (dictLookup_dictInsert_self _ _ _)
    · exact hmem t hm

theorem insert_package_types_err (p : Provider) (s : RegistryState) (ts : List String)
    (h : ∃ t ∈ ts, (dictLookup s.package_plugins t).isSome) :
    ∃ t', (insert_package_types p s ts).2 = some (RegError.duplicatePackageType t') := by
  induction ts generalizing s with
  | nil => simp at h
  | cons t0 ts ih =>
    unfold insert_package_types
    cases h0 : dictLookup s.package_plugins t0 with
    | some _ => exact ⟨t0, rfl⟩
    | none =>
      obtain ⟨t1, ht1, hs1⟩ := h
      rcases List.mem_cons.mp ht1 with he | hm
      · subst he
        rw [h0] at hs1
        exact absurd hs1 (by simp)
      · refine ih _ ⟨t1, hm, ?_⟩
        have hne : t1 ≠ t0 := by
          intro he
          rw [he, h0] at hs1
          exact absurd hs1 (by simp)
        show (dictLookup (dictInsert s.package_plugins t0 p) t1).isSome
        rw [dictLookup_dictInsert_ne _ _ _ _ hne]
        exact hs1

theorem package_fallback_step_not_fallback (s : RegistryState) (p : Provider)
    (hf : p.is_fallback = false) : package_fallback_step s p = (s, none) := by
  simp [package_fallback_step, hf]

/-- Two minimal extension providers that both declare dataset type `"a"`. -/
def provA : Provider :=
  { name := "A"
    is_fallback := false
    package_types := ["a"]
    group_types := []
    group_controller := none
    is_organization := none
    instDefaultDatasetForm := false
    instDefaultGroupForm := false
    instDefaultOrganizationForm := false }

def provB : Provider := { provA with name := "B" }

/-- Claim C5: `lookup_group_plugin` returns the group fallback for an absent type;
the organization fallback for `"organization"` whenever no explicit
`"organization"` entry is in the table (whatever the group fallback is); the
registered provider for a type in the table; and the group fallback — never
the organization fallback — for any unknown non-`"organization"` type. -/
theorem lookup_group_plugin_spec (s : RegistryState) (t : String) :
    (lookup_group_plugin s none).1 = s.default_group_plugin
    ∧ (dictLookup s.group_plugins "organization" = none →
        (lookup_group_plugin s (some "organization")).1 = s.default_organization_plugin)
    ∧ (∀ p, dictLookup s.group_plugins t = some p →
        (lookup_group_plugin s (some t)).1 = some p)
    ∧ (t ≠ "organization" → dictLookup s.group_plugins t = none →
        (lookup_group_plugin s (some t)).1 = s.default_group_plugin) := by
  refine ⟨rfl, ?_, ?_, ?_⟩
  · intro h
    simp [lookup_group_plugin, h]
  · intro p h
    simp [lookup_group_plugin, h]
  · intro hne h
    simp [lookup_group_plugin, h, hne]

/-- Claim C9: the combined reset restores the virgin module state — both type
tables and all fallback slots cleared at once — so registering any provider
sequence after a reset reproduces exactly the registry, and hence exactly
the lookup results, of a virgin process registering the same sequence. -/
theorem reset_then_register_reproduces (s : RegistryState) (dps gps : List Provider)
    (pt gt ct : Option String) :
    reset_package_plugins (reset_group_plugins s) = initialRegistry
    ∧ register_package_plugins (reset_package_plugins (reset_group_plugins s)) dps
        = register_package_plugins initialRegistry dps
    ∧ register_group_plugins (reset_package_plugins (reset_group_plugins s)) gps
        = register_group_plugins initialRegistry gps
    ∧ lookup_package_plugin
        (register_package_plugins (reset_package_plugins (reset_group_plugins s)) dps).1 pt
        = lookup_package_plugin (register_package_plugins initialRegistry dps).1 pt
    ∧ lookup_group_plugin
        (register_group_plugins (reset_package_plugins (reset_group_plugins s)) gps).1 gt
        = lookup_group_plugin (register_group_plugins initialRegistry gps).1 gt
    ∧ lookup_group_controller
        (register_group_plugins (reset_package_plugins (reset_group_plugins s)) gps).1 ct
        = lookup_group_controller (register_group_plugins initialRegistry gps).1 ct := by
  have h : reset_package_plugins (reset_group_plugins s) = initialRegistry := by
    cases s
    rfl
  exact ⟨h, by rw [h], by rw [h], by rw [h], by rw [h], by rw [h]⟩

/-- Claim C10: every lookup leaves the registry state unchanged, so lookups
commute with one another and repeating a lookup returns the same result. -/
theorem lookups_pure (s : RegistryState) (pt gt ct : Option String) :
    (lookup_package_plugin s pt).2 = s
    ∧ (lookup_group_plugin s gt).2 = s
    ∧ (lookup_group_controller s ct).2 = s
    ∧ lookup_package_plugin ((lookup_group_plugin s gt).2) pt = lookup_package_plugin s pt
    ∧ lookup_group_plugin ((lookup_package_plugin s pt).2) gt = lookup_group_plugin s gt
    ∧ lookup_group_controller ((lookup_group_plugin s gt).2) ct
        = lookup_group_controller s ct := by
  have h1 : (lookup_package_plugin s pt).2 = s := by
    cases pt with
    | none => rfl
    | some t => cases h : dictLookup s.package_plugins t <;> simp [lookup_package_plugin, h]
  have h2 : (lookup_group_plugin s gt).2 = s := by
    cases gt with
    | none => rfl
    | some t => cases h : dictLookup s.group_plugins t <;> simp [lookup_group_plugin, h]
  have h3 : (lookup_group_controller s ct).2 = s := by
    cases ct <;> rfl
  exact ⟨h1, h2, h3, by rw [h2], by rw [h1], by rw [h2]⟩

/-! ## Registration lemmas, group/organization axis -/

theorem group_fallback_step_tables (s : RegistryState) (p : Provider) :
    (group_fallback_step s p).1.group_plugins = s.group_plugins
    ∧ (group_fallback_step s p).1.group_controllers = s.group_controllers := by
  unfold group_fallback_step
  by_cases hf : p.is_fallback
  · by_cases ho : is_organization_of p
    · simp only [hf, ho, if_true]
      cases hd : s.default_organization_plugin with
      | none => exact ⟨rfl, rfl⟩
      | some cur => by_cases hc : cur.instDefaultOrganizationForm <;> simp [hc]
    · simp only [hf, if_true, Bool.not_eq_true] at *
      simp only [ho, Bool.false_eq_true, if_false]
      cases hd : s.default_group_plugin with
      | none => exact ⟨rfl, rfl⟩
      | some cur => by_cases hc : cur.instDefaultGroupForm <;> simp [hc]
  · simp [hf]

theorem group_fallback_step_not_fallback (s : RegistryState) (p : Provider)
    (hf : p.is_fallback = false) : group_fallback_step s p = (s, none) := by
  simp [group_fallback_step, hf]

theorem group_fallback_step_no_err (s : RegistryState) (p : Provider)
    (hgrp : ∀ cur, s.default_group_plugin = some cur → cur.instDefaultGroupForm = true)
    (horg : ∀ cur, s.default_organization_plugin = some cur →
        cur.instDefaultOrganizationForm = true) :
    (group_fallback_step s p).2 = none := by
  unfold group_fallback_step
  by_cases hf : p.is_fallback
  · by_cases ho : is_organization_of p
    · simp only [hf, ho, if_true]
      cases hd : s.default_organization_plugin with
      | none => rfl
      | some cur => simp [horg cur hd]
    · simp only [hf, if_true, Bool.not_eq_true] at *
      simp only [ho, Bool.false_eq_true, if_false]
      cases hd : s.default_group_plugin with
      | none => rfl
      | some cur => simp [hgrp cur hd]
  · simp [hf]

theorem group_fallback_step_defaults (s : RegistryState) (p : Provider)
    (h : (group_fallback_step s p).2 = none) :
    (group_fallback_step s p).1.default_group_plugin
      = (if p.is_fallback = true ∧ is_organization_of p = false then some p
         else s.default_group_plugin)
    ∧ (group_fallback_step s p).1.default_organization_plugin
      = (if p.is_fallback = true ∧ is_organization_of p = true then some p
         else s.default_organization_plugin) := by
  unfold group_fallback_step at *
  by_cases hf : p.is_fallback
  · by_cases ho : is_organization_of p
    · simp only [hf, ho, if_true] at *
      cases hd : s.default_organization_plugin with
      | none => simp
      | some cur =>
        rw [hd] at h
        by_cases hc : cur.instDefaultOrganizationForm
        · simp [hc]
        · simp [hc] at h
    · simp only [hf, if_true, Bool.not_eq_true] at *
      simp only [ho, Bool.false_eq_true, if_false] at *
      cases hd : s.default_group_plugin with
      | none => simp [ho]
      | some cur =>
        rw [hd] at h
        by_cases hc : cur.instDefaultGroupForm
        · simp [hc, ho]
        · simp [hc] at h
  · simp [hf]

theorem group_fallback_step_conflict_grp (s : RegistryState) (p : Provider)
    (hf : p.is_fallback = true) (ho : is_organization_of p = false)
    (cur : Provider) (hc : s.default_group_plugin = some cur)
    (hinst : cur.instDefaultGroupForm = false) :
    group_fallback_step s p = (s, some RegError.multipleGroupFallback) := by
  simp [group_fallback_step, hf, ho, hc, hinst]

theorem group_fallback_step_conflict_org (s : RegistryState) (p : Provider)
    (hf : p.is_fallback = true) (ho : is_organization_of p = true)
    (cur : Provider) (hc : s.default_organization_plugin = some cur)
    (hinst : cur.instDefaultOrganizationForm = false) :
    group_fallback_step s p = (s, some RegError.multipleOrganizationFallback) := by
  simp [group_fallback_step, hf, ho, hc, hinst]

theorem insert_group_types_defaults (p : Provider) (gc : String) (s : RegistryState)
    (ts : List String) :
    (insert_group_types p gc s ts).1.default_group_plugin = s.default_group_plugin
    ∧ (insert_group_types p gc s ts).1.default_organization_plugin
        = s.default_organization_plugin := by
  induction ts generalizing s with
  | nil => exact ⟨rfl, rfl⟩
  | cons t ts ih =>
    unfold insert_group_types
    cases h : dictLookup s.group_plugins t with
    | some _ => exact ⟨rfl, rfl⟩
    | none => exact ih _

theorem insert_group_types_lookup_notmem (p : Provider) (gc : String) (s : RegistryState)
    (ts : List String) (t : String) (h : t ∉ ts) :
    dictLookup (insert_group_types p gc s ts).1.group_plugins t
      = dictLookup s.group_plugins t
    ∧ dictLookup (insert_group_types p gc s ts).1.group_controllers t
      = dictLookup s.group_controllers t := by
  induction ts generalizing s with
  | nil => exact ⟨rfl, rfl⟩
  | cons t0 ts ih =>
    have ht0 : t ≠ t0 := fun he => h (he ▸ List.mem_cons_self t0 ts)
    have hts : t ∉ ts := fun hm => h (List.mem_cons_of_mem t0 hm)
    unfold insert_group_types
    cases h0 : dictLookup s.group_plugins t0 with
    | some _ => exact ⟨rfl, rfl⟩
    | none =>
      obtain ⟨ih1, ih2⟩ := ih _ hts
      rw [ih1, ih2]
      exact ⟨dictLookup_dictInsert_ne _ _ _ _ ht0, dictLookup_dictInsert_ne _ _ _ _ ht0⟩

theorem insert_group_types_mono (p : Provider) (gc : String) (s : RegistryState)
    (ts : List String) (k : String) (v : Provider)
    (h : dictLookup s.group_plugins k = some v) :
    dictLookup (insert_group_types p gc s ts).1.group_plugins k = some v
    ∧ dictLookup (insert_group_types p gc s ts).1.group_controllers k
      = dictLookup s.group_controllers k := by
  induction ts generalizing s with
  | nil => exact ⟨h, rfl⟩
  | cons t0 ts ih =>
    unfold insert_group_types
    cases h0 : dictLookup s.group_plugins t0 with
    | some _ => exact ⟨h, rfl⟩
    | none =>
      have hk : k ≠ t0 := by
        intro he
        rw [he, h0] at h
        exact Option.noConfusion h
      have h' : dictLookup (dictInsert s.group_plugins t0 p) k = some v := by
        rw [dictLookup_dictInsert_ne _ _ _ _ hk]
        exact h
      obtain ⟨ih1, ih2⟩ := ih { s with
          group_plugins := dictInsert s.group_plugins t0 p
          group_controllers := dictInsert s.group_controllers t0 gc } h'
      refine ⟨ih1, ?_⟩
      rw [ih2]
      exact dictLookup_dictInsert_ne _ _ _ _ hk

theorem insert_group_types_success_mem (p : Provider) (gc : String) (s : RegistryState)
    (ts : List String) (hok : (insert_group_types p gc s ts).2 = none) :
    ∀ t ∈ ts, dictLookup (insert_group_types p gc s ts).1.group_plugins t = some p
      ∧ dictLookup (insert_group_types p gc s ts).1.group_controllers t = some gc := by
  induction ts generalizing s with
  | nil => exact fun t ht => absurd ht (List.not_mem_nil t)
  | cons t0 ts ih =>
    intro t ht
    cases h0 : dictLookup s.group_plugins t0 with
    | some q =>
      exfalso
      have hbad : (insert_group_types p gc s (t0 :: ts)).2
          = some (RegError.duplicateGroupType t0) := by
        conv_lhs => rw [insert_group_types]
        rw [h0]
      rw [hbad] at hok
      exact Option.noConfusion hok
    | none =>
      have hstep : insert_group_types p gc s (t0 :: ts)
          = insert_group_types p gc { s with
              group_plugins := dictInsert s.group_plugins t0 p
              group_controllers := dictInsert s.group_controllers t0 gc } ts := by
        conv_lhs => rw [insert_group_types]
        rw [h0]
      rw [hstep] at hok ⊢
      rcases List.mem_cons.mp ht with he | hm
      · subst he
        have hself : dictLookup (dictInsert s.group_plugins t p) t = some p :=
          dictLookup_dictInsert_self _ _ _
        obtain ⟨m1, m2⟩ := insert_group_types_mono p gc { s with
            group_plugins := dictInsert s.group_plugins t p
            group_controllers := dictInsert s.group_controllers t gc } ts t p hself
        refine ⟨m1, ?_⟩
        rw [m2]
        exact dictLookup_dictInsert_self _ _ _
      · exact ih { s with
            group_plugins := dictInsert s.group_plugins t0 p
            group_controllers := dictInsert s.group_controllers t0 gc } hok t hm

theorem insert_group_types_ok (p : Provider) (gc : String) (s : RegistryState)
    (ts : List String) (hnd : ts.Nodup)
    (habs : ∀ t ∈ ts, dictLookup s.group_plugins t = none) :
    (insert_group_types p gc s ts).2 = none := by
  induction ts generalizing s with
  | nil => rfl
  | cons t0 ts ih =>
    have h0 : dictLookup s.group_plugins t0 = none := habs t0 (List.mem_cons_self t0 ts)
    have ht0 : t0 ∉ ts := (List.nodup_cons.mp hnd).1
    unfold insert_group_types
    rw [h0]
    refine ih _ hnd.of_cons ?_
    intro t ht
    have : t ≠ t0 := fun he => ht0 (he ▸ ht)
    show dictLookup (dictInsert s.group_plugins t0 p) t = none
    rw [dictLookup_dictInsert_ne _ _ _ _ this]
    exact habs t (List.mem_cons_of_mem t0 ht)

theorem insert_group_types_err (p : Provider) (gc : String) (s : RegistryState)
    (ts : List String) (h : ∃ t ∈ ts, (dictLookup s.group_plugins t).isSome) :
    ∃ t', (insert_group_types p gc s ts).2 = some (RegError.duplicateGroupType t') := by
  induction ts generalizing s with
  | nil => simp at h
  | cons t0 ts ih =>
    unfold insert_group_types
    cases h0 : dictLookup s.group_plugins t0 with
    | some _ => exact ⟨t0, rfl⟩
    | none =>
      obtain ⟨t1, ht1, hs1⟩ := h
      rcases List.mem_cons.mp ht1 with he | hm
      · subst he
        rw [h0] at hs1
        exact absurd hs1 (by simp)
      · refine ih _ ⟨t1, hm, ?_⟩
        have hne : t1 ≠ t0 := by
          intro he
          rw [he, h0] at hs1
          exact absurd hs1 (by simp)
        show (dictLookup (dictInsert s.group_plugins t0 p) t1).isSome
        rw [dictLookup_dictInsert_ne _ _ _ _ hne]
        exact hs1

theorem dictLookup_seedController_self (c : List (String × String)) (k : String) :
    dictLookup (seedController c k) k = some ((dictLookup c k).getD k) := by
  unfold seedController
  cases h : dictLookup c k with
  | none => simp [dictLookup_dictInsert_self]
  | some v => simp [h]

theorem dictLookup_seedController_ne (c : List (String × String)) (k t : String)
    (h : t ≠ k) : dictLookup (seedController c k) t = dictLookup c t := by
  unfold seedController
  cases hk : dictLookup c k with
  | none => exact dictLookup_dictInsert_ne _ _ _ _ h
  | some v => rfl

theorem set_default_group_controllers_lookup (s : RegistryState) (t : String) :
    dictLookup (set_default_group_plugin s).group_controllers t
      = if t = "organization" then
          some ((dictLookup s.group_controllers "organization").getD "organization")
        else if t = "group" then
          some ((dictLookup s.group_controllers "group").getD "group")
        else dictLookup s.group_controllers t := by
  show dictLookup (seedController (seedController s.group_controllers "group") "organization") t
    = _
  by_cases ho : t = "organization"
  · subst ho
    rw [dictLookup_seedController_self,
      dictLookup_seedController_ne _ _ _ (by decide : ("organization" : String) ≠ "group")]
    simp
  · rw [dictLookup_seedController_ne _ _ _ ho]
    by_cases hg : t = "group"
    · subst hg
      rw [dictLookup_seedController_self]
      simp [ho]
    · rw [dictLookup_seedController_ne _ _ _ hg]
      simp [ho, hg]

theorem set_default_group_plugin_defaults (s : RegistryState) :
    (set_default_group_plugin s).default_group_plugin
      = some (s.default_group_plugin.getD DefaultGroupFormInst)
    ∧ (set_default_group_plugin s).default_organization_plugin
      = some (s.default_organization_plugin.getD DefaultOrganizationFormInst) := by
  constructor
  · show (match s.default_group_plugin with
        | none => some DefaultGroupFormInst
        | some p => some p) = _
    cases s.default_group_plugin <;> rfl
  · show (match s.default_organization_plugin with
        | none => some DefaultOrganizationFormInst
        | some p => some p) = _
    cases s.default_organization_plugin <;> rfl

theorem set_default_group_plugin_plugins (s : RegistryState) :
    (set_default_group_plugin s).group_plugins = s.group_plugins := rfl

theorem register_group_list_cons_err1 (s : RegistryState) (p : Provider) (ps : List Provider)
    (s1 : RegistryState) (e : RegError) (hA : group_fallback_step s p = (s1, some e)) :
    register_group_list s (p :: ps) = (s1, some e) := by
  simp only [register_group_list, hA]

theorem register_group_list_cons_err2 (s : RegistryState) (p : Provider) (ps : List Provider)
    (s1 s2 : RegistryState) (e : RegError) (hA : group_fallback_step s p = (s1, none))
    (hB : insert_group_types p (group_controller_of p) s1 p.group_types = (s2, some e)) :
    register_group_list s (p :: ps) = (s2, some e) := by
  simp only [register_group_list, hA, hB]

theorem register_group_list_cons_ok (s : RegistryState) (p : Provider) (ps : List Provider)
    (s1 s2 : RegistryState) (hA : group_fallback_step s p = (s1, none))
    (hB : insert_group_types p (group_controller_of p) s1 p.group_types = (s2, none)) :
    register_group_list s (p :: ps) = register_group_list s2 ps := by
  simp only [register_group_list, hA, hB]

theorem register_group_list_cons_inv (s : RegistryState) (p : Provider) (ps : List Provider)
    (s' : RegistryState) (h : register_group_list s (p :: ps) = (s', none)) :
    ∃ s1 s2, group_fallback_step s p = (s1, none)
      ∧ insert_group_types p (group_controller_of p) s1 p.group_types = (s2, none)
      ∧ register_group_list s2 ps = (s', none) := by
  cases hA : group_fallback_step s p with
  | mk s1 e1 =>
  cases e1 with
  | some e =>
    rw [register_group_list_cons_err1 s p ps s1 e hA] at h
    exact absurd (congrArg Prod.snd h) (by simp)
  | none =>
  cases hB : insert_group_types p (group_controller_of p) s1 p.group_types with
  | mk s2 e2 =>
  cases e2 with
  | some e =>
    rw [register_group_list_cons_err2 s p ps s1 s2 e hA hB] at h
    exact absurd (congrArg Prod.snd h) (by simp)
  | none =>
    refine ⟨s1, s2, rfl, hB, ?_⟩
    rw [← register_group_list_cons_ok s p ps s1 s2 hA hB]
    exact h

theorem register_group_list_nil_inv (s s' : RegistryState)
    (h : register_group_list s [] = (s', none)) : s' = s := by
  have h' : (s, (none : Option RegError)) = (s', none) := h
  exact (((Prod.mk.injEq _ _ _ _).mp h').1).symm

theorem register_group_list_lookup_notmem (ps : List Provider) :
    ∀ s s' : RegistryState, register_group_list s ps = (s', none) →
      ∀ t, (∀ p ∈ ps, t ∉ p.group_types) →
        dictLookup s'.group_plugins t = dictLookup s.group_plugins t
        ∧ dictLookup s'.group_controllers t = dictLookup s.group_controllers t := by
  induction ps with
  | nil =>
    intro s s' h t _
    rw [register_group_list_nil_inv s s' h]
    exact ⟨rfl, rfl⟩
  | cons p ps ih =>
    intro s s' h t hnm
    obtain ⟨s1, s2, hA, hB, hC⟩ := register_group_list_cons_inv _ _ _ _ h
    have ht1 := group_fallback_step_tables s p
    rw [hA] at ht1
    have ht2 := insert_group_types_lookup_notmem p (group_controller_of p) s1 p.group_types t
      (hnm p (List.mem_cons_self p ps))
    rw [hB] at ht2
    obtain ⟨ih1, ih2⟩ := ih s2 s' hC t (fun q hq => hnm q (List.mem_cons_of_mem p hq))
    exact ⟨by rw [ih1, ht2.1, ht1.1], by rw [ih2, ht2.2, ht1.2]⟩

theorem register_group_list_mono (ps : List Provider) :
    ∀ s s' : RegistryState, register_group_list s ps = (s', none) →
      ∀ k v, dictLookup s.group_plugins k = some v →
        dictLookup s'.group_plugins k = some v
        ∧ dictLookup s'.group_controllers k = dictLookup s.group_controllers k := by
  induction ps with
  | nil =>
    intro s s' h k v hk
    rw [register_group_list_nil_inv s s' h]
    exact ⟨hk, rfl⟩
  | cons p ps ih =>
    intro s s' h k v hk
    obtain ⟨s1, s2, hA, hB, hC⟩ := register_group_list_cons_inv _ _ _ _ h
    have ht1 := group_fallback_step_tables s p
    rw [hA] at ht1
    have hk1 : dictLookup s1.group_plugins k = some v := by
      rw [ht1.1]
      exact hk
    have hm := insert_group_types_mono p (group_controller_of p) s1 p.group_types k v hk1
    rw [hB] at hm
    obtain ⟨ihp, ihc⟩ := ih s2 s' hC k v hm.1
    exact ⟨ihp, by rw [ihc, hm.2, ht1.2]⟩

theorem register_group_list_bound (ps : List Provider) :
    ∀ s s' : RegistryState, register_group_list s ps = (s', none) →
      ∀ p ∈ ps, ∀ t ∈ p.group_types,
        dictLookup s'.group_plugins t = some p
        ∧ dictLookup s'.group_controllers t = some (group_controller_of p) := by
  induction ps with
  | nil =>
    intro s s' _ p hp
    exact absurd hp (List.not_mem_nil p)
  | cons p0 ps ih =>
    intro s s' h p hp t ht
    obtain ⟨s1, s2, hA, hB, hC⟩ := register_group_list_cons_inv _ _ _ _ h
    rcases List.mem_cons.mp hp with he | hm
    · subst he
      have hsm := insert_group_types_success_mem p (group_controller_of p) s1 p.group_types
        (by rw [hB]) t ht
      rw [hB] at hsm
      obtain ⟨hm1, hm2⟩ := register_group_list_mono ps s2 s' hC t p hsm.1
      exact ⟨hm1, by rw [hm2, hsm.2]⟩
    · exact ih s2 s' hC p hm t ht

theorem register_group_list_defaults (ps : List Provider) :
    ∀ s s' : RegistryState, register_group_list s ps = (s', none) →
      ((∀ p ∈ ps, ¬(p.is_fallback = true ∧ is_organization_of p = false)) →
        s'.default_group_plugin = s.default_group_plugin)
      ∧ ((∀ p ∈ ps, ¬(p.is_fallback = true ∧ is_organization_of p = true)) →
        s'.default_organization_plugin = s.default_organization_plugin) := by
  induction ps with
  | nil =>
    intro s s' h
    rw [register_group_list_nil_inv s s' h]
    exact ⟨fun _ => rfl, fun _ => rfl⟩
  | cons p ps ih =>
    intro s s' h
    obtain ⟨s1, s2, hA, hB, hC⟩ := register_group_list_cons_inv _ _ _ _ h
    have hd1 := group_fallback_step_defaults s p (by rw [hA])
    rw [hA] at hd1
    have hd2 := insert_group_types_defaults p (group_controller_of p) s1 p.group_types
    rw [hB] at hd2
    obtain ⟨ihg, iho⟩ := ih s2 s' hC
    constructor
    · intro hng
      have hp0 := hng p (List.mem_cons_self p ps)
      rw [ihg (fun q hq => hng q (List.mem_cons_of_mem p hq)), hd2.1, hd1.1, if_neg hp0]
    · intro hno
      have hp0 := hno p (List.mem_cons_self p ps)
      rw [iho (fun q hq => hno q (List.mem_cons_of_mem p hq)), hd2.2, hd1.2, if_neg hp0]

theorem register_group_plugins_ok_inv (s : RegistryState) (ps : List Provider)
    (s' : RegistryState) (h : register_group_plugins s ps = (s', none)) :
    ∃ s0, register_group_list s ps = (s0, none) ∧ s' = set_default_group_plugin s0 := by
  unfold register_group_plugins at h
  cases hr : register_group_list s ps with
  | mk s0 e =>
  cases e with
  | some e0 =>
    rw [hr] at h
    exact absurd (congrArg Prod.snd h) (by simp)
  | none =>
    rw [hr] at h
    exact ⟨s0, rfl, (((Prod.mk.injEq _ _ _ _).mp h).1).symm⟩

theorem register_group_plugins_err (s : RegistryState) (ps : List Provider)
    (s0 : RegistryState) (e : RegError) (h : register_group_list s ps = (s0, some e)) :
    register_group_plugins s ps = (s0, some e) := by
  unfold register_group_plugins
  rw [h]

theorem package_fallback_step_conflict (s : RegistryState) (p : Provider)
    (hf : p.is_fallback = true) (cur : Provider)
    (hc : s.default_package_plugin = some cur) (hinst : cur.instDefaultDatasetForm = false) :
    package_fallback_step s p = (s, some RegError.multipleDatasetFallback) := by
  simp [package_fallback_step, hf, hc, hinst]

theorem register_package_list_cons_err1 (s : RegistryState) (p : Provider)
    (ps : List Provider) (s1 : RegistryState) (e : RegError)
    (hA : package_fallback_step s p = (s1, some e)) :
    register_package_list s (p :: ps) = (s1, some e) := by
  simp only [register_package_list, hA]

theorem register_package_list_cons_err2 (s : RegistryState) (p : Provider)
    (ps : List Provider) (s1 s2 : RegistryState) (e : RegError)
    (hA : package_fallback_step s p = (s1, none))
    (hB : insert_package_types p s1 p.package_types = (s2, some e)) :
    register_package_list s (p :: ps) = (s2, some e) := by
  simp only [register_package_list, hA, hB]

theorem register_package_list_cons_ok (s : RegistryState) (p : Provider)
    (ps : List Provider) (s1 s2 : RegistryState)
    (hA : package_fallback_step s p = (s1, none))
    (hB : insert_package_types p s1 p.package_types = (s2, none)) :
    register_package_list s (p :: ps) = register_package_list s2 ps := by
  simp only [register_package_list, hA, hB]

theorem register_package_list_cons_inv (s : RegistryState) (p : Provider)
    (ps : List Provider) (s' : RegistryState)
    (h : register_package_list s (p :: ps) = (s', none)) :
    ∃ s1 s2, package_fallback_step s p = (s1, none)
      ∧ insert_package_types p s1 p.package_types = (s2, none)
      ∧ register_package_list s2 ps = (s', none) := by
  cases hA : package_fallback_step s p with
  | mk s1 e1 =>
  cases e1 with
  | some e =>
    rw [register_package_list_cons_err1 s p ps s1 e hA] at h
    exact absurd (congrArg Prod.snd h) (by simp)
  | none =>
  cases hB : insert_package_types p s1 p.package_types with
  | mk s2 e2 =>
  cases e2 with
  | some e =>
    rw [register_package_list_cons_err2 s p ps s1 s2 e hA hB] at h
    exact absurd (congrArg Prod.snd h) (by simp)
  | none =>
    refine ⟨s1, s2, rfl, hB, ?_⟩
    rw [← register_package_list_cons_ok s p ps s1 s2 hA hB]
    exact h

theorem register_package_list_nil_inv (s s' : RegistryState)
    (h : register_package_list s [] = (s', none)) : s' = s := by
  have h' : (s, (none : Option RegError)) = (s', none) := h
  exact (((Prod.mk.injEq _ _ _ _).mp h').1).symm

theorem register_package_list_default (ps : List Provider) :
    ∀ s s' : RegistryState, register_package_list s ps = (s', none) →
      (∀ p ∈ ps, p.is_fallback = false) →
      s'.default_package_plugin = s.default_package_plugin := by
  induction ps with
  | nil =>
    intro s s' h _
    rw [register_package_list_nil_inv s s' h]
  | cons p ps ih =>
    intro s s' h hnf
    obtain ⟨s1, s2, hA, hB, hC⟩ := register_package_list_cons_inv _ _ _ _ h
    have hstep := package_fallback_step_not_fallback s p (hnf p (List.mem_cons_self p ps))
    rw [hstep] at hA
    have hs1 : s1 = s := (((Prod.mk.injEq _ _ _ _).mp hA).1).symm
    subst hs1
    have hd := insert_package_types_default p s1 p.package_types
    rw [hB] at hd
    rw [ih s2 s' hC (fun q hq => hnf q (List.mem_cons_of_mem p hq)), hd]

theorem register_package_plugins_ok_inv (s : RegistryState) (ps : List Provider)
    (s' : RegistryState) (h : register_package_plugins s ps = (s', none)) :
    ∃ s0, register_package_list s ps = (s0, none) ∧ s' = set_default_package_plugin s0 := by
  unfold register_package_plugins at h
  cases hr : register_package_list s ps with
  | mk s0 e =>
  cases e with
  | some e0 =>
    rw [hr] at h
    exact absurd (congrArg Prod.snd h) (by simp)
  | none =>
    rw [hr] at h
    exact ⟨s0, rfl, (((Prod.mk.injEq _ _ _ _).mp h).1).symm⟩

theorem register_package_plugins_err (s : RegistryState) (ps : List Provider)
    (s0 : RegistryState) (e : RegError) (h : register_package_list s ps = (s0, some e)) :
    register_package_plugins s ps = (s0, some e) := by
  unfold register_package_plugins
  rw [h]

theorem set_default_package_plugin_default (s : RegistryState) :
    (set_default_package_plugin s).default_package_plugin
      = some (s.default_package_plugin.getD DefaultDatasetFormInst) := by
  unfold set_default_package_plugin
  cases h : s.default_package_plugin <;> simp [h]

/-- Claim C8 counterexample: after a successful registration pass with no
providers at all, `lookup_group_controller` on the type-string `"group"` —
which no provider ever registered — returns `some "group"` rather than
absent: `set_default_group_plugin` seeded the controller table. -/
theorem controller_seed_cex :
    (register_group_plugins initialRegistry []).2 = none
    ∧ (lookup_group_controller (register_group_plugins initialRegistry []).1
        (some "group")).1 = some "group" :=
  ⟨by decide, by decide⟩

/-- Claim C8 as amended: after a successful registration pass from the virgin
state, `lookup_group_controller` returns the controller-name bound at
registration for every type-string a provider registered; for a type-string
no provider registered it returns absent — except the built-in `"group"` and
`"organization"` entries, which the end-of-registration default installer
seeds to `"group"` and `"organization"` when no provider claimed them. -/
theorem lookup_group_controller_spec (ps : List Provider) (s' : RegistryState) (t : String)
    (hreg : register_group_plugins initialRegistry ps = (s', none)) :
    (∀ p ∈ ps, ∀ t0 ∈ p.group_types,
      (lookup_group_controller s' (some t0)).1 = some (group_controller_of p))
    ∧ ((∀ p ∈ ps, t ∉ p.group_types) → t ≠ "group" → t ≠ "organization" →
      (lookup_group_controller s' (some t)).1 = none) := by
  obtain ⟨s0, hlist, hset⟩ := register_group_plugins_ok_inv _ _ _ hreg
  subst hset
  constructor
  · intro p hp t0 ht0
    have hb := register_group_list_bound ps initialRegistry s0 hlist p hp t0 ht0
    show dictLookup (set_default_group_plugin s0).group_controllers t0 = _
    rw [set_default_group_controllers_lookup]
    by_cases ho : t0 = "organization"
    · subst ho
      simp [hb.2]
    · by_cases hg : t0 = "group"
      · subst hg
        simp [ho, hb.2]
      · simp [ho, hg, hb.2]
  · intro hnm hg ho
    have hfr := register_group_list_lookup_notmem ps initialRegistry s0 hlist t hnm
    show dictLookup (set_default_group_plugin s0).group_controllers t = none
    rw [set_default_group_controllers_lookup, if_neg ho, if_neg hg, hfr.2]
    rfl

/-- An extension provider declaring the group type `"custom"` routed by the
controller `"ctrl"`. -/
def provG : Provider :=
  { name := "G"
    is_fallback := false
    package_types := []
    group_types := ["custom"]
    group_controller := some "ctrl"
    is_organization := none
    instDefaultDatasetForm := false
    instDefaultGroupForm := false
    instDefaultOrganizationForm := false }

theorem lookup_group_controller_spec_witness :
    (lookup_group_controller (register_group_plugins initialRegistry [provG]).1
      (some "custom")).1 = some "ctrl"
    ∧ (lookup_group_controller (register_group_plugins initialRegistry [provG]).1
      (some "other")).1 = none := by
  have h := lookup_group_controller_spec [provG]
    (register_group_plugins initialRegistry [provG]).1 "other" (by decide)
  exact ⟨h.1 provG (by decide) "custom" (by decide), h.2 (by decide) (by decide) (by decide)⟩

/-- Claim C7 counterexample: in a pass where no extension claims the dataset
fallback, the default provider is already installed in the fallback slot
when the registration call returns, before any lookup has been made — the
installation is the eager `set_default_package_plugin` call ending
`register_package_plugins`, not a lazy step of the first lookup. -/
theorem eager_default_install_cex :
    (register_package_plugins initialRegistry []).2 = none
    ∧ (register_package_plugins initialRegistry []).1.default_package_plugin
        = some DefaultDatasetFormInst :=
  ⟨by decide, by decide⟩

/-- Claim C7 as amended: for every axis in which no extension-supplied
provider claims fallback status, the axis's default provider is installed
eagerly as the final step of the successful registration pass (the
`set_default_*` call), not lazily at the first lookup; an absent-type lookup
then returns that single default instance — unchanged across repeated
lookups, which construct nothing and leave the state as it is.  Each axis's
conclusion needs only that axis to be free of fallback claimants: claimants
on the other axes do not disturb it. -/
theorem default_install_at_registration_end (dps gps : List Provider)
    (s1 s2 : RegistryState)
    (h1 : register_package_plugins initialRegistry dps = (s1, none))
    (h2 : register_group_plugins initialRegistry gps = (s2, none)) :
    ((∀ p ∈ dps, p.is_fallback = false) →
      (lookup_package_plugin s1 none).1 = some DefaultDatasetFormInst
      ∧ (lookup_package_plugin (lookup_package_plugin s1 none).2 none).1
          = some DefaultDatasetFormInst)
    ∧ ((∀ p ∈ gps, ¬(p.is_fallback = true ∧ is_organization_of p = false)) →
      (lookup_group_plugin s2 none).1 = some DefaultGroupFormInst
      ∧ (lookup_group_plugin (lookup_group_plugin s2 none).2 none).1
          = some DefaultGroupFormInst)
    ∧ ((∀ p ∈ gps, ¬(p.is_fallback = true ∧ is_organization_of p = true)) →
      s2.default_organization_plugin = some DefaultOrganizationFormInst
      ∧ (dictLookup s2.group_plugins "organization" = none →
          (lookup_group_plugin s2 (some "organization")).1
            = some DefaultOrganizationFormInst)) := by
  obtain ⟨s0, hlist, hset⟩ := register_package_plugins_ok_inv _ _ _ h1
  obtain ⟨g0, hglist, hgset⟩ := register_group_plugins_ok_inv _ _ _ h2
  obtain ⟨hdg, hdo⟩ := register_group_list_defaults gps initialRegistry g0 hglist
  refine ⟨?_, ?_, ?_⟩
  · intro hnf
    have hd0 : s0.default_package_plugin = none :=
      register_package_list_default dps initialRegistry s0 hlist hnf
    have hpkg : s1.default_package_plugin = some DefaultDatasetFormInst := by
      rw [hset, set_default_package_plugin_default, hd0]
      rfl
    exact ⟨hpkg, hpkg⟩
  · intro hng
    have hgrp : s2.default_group_plugin = some DefaultGroupFormInst := by
      rw [hgset, (set_default_group_plugin_defaults g0).1, hdg hng]
      rfl
    exact ⟨hgrp, hgrp⟩
  · intro hno
    have horg : s2.default_organization_plugin = some DefaultOrganizationFormInst := by
      rw [hgset, (set_default_group_plugin_defaults g0).2, hdo hno]
      rfl
    refine ⟨horg, ?_⟩
    intro habs
    simp [lookup_group_plugin, habs, horg]

/-- A non-fallback extension provider declaring only the dataset type
`"ds-a"`. -/
def provD : Provider :=
  { name := "D"
    is_fallback := false
    package_types := ["ds-a"]
    group_types := []
    group_controller := none
    is_organization := none
    instDefaultDatasetForm := false
    instDefaultGroupForm := false
    instDefaultOrganizationForm := false }

theorem group_fallback_step_no_err_org (s : RegistryState) (p : Provider)
    (ho : is_organization_of p = true)
    (h : ∀ cur, s.default_organization_plugin = some cur →
        cur.instDefaultOrganizationForm = true) :
    (group_fallback_step s p).2 = none := by
  unfold group_fallback_step
  by_cases hf : p.is_fallback
  · simp only [hf, ho, if_true]
    cases hd : s.default_organization_plugin with
    | none => rfl
    | some cur => simp [h cur hd]
  · simp [hf]

theorem group_fallback_step_no_err_grp (s : RegistryState) (p : Provider)
    (ho : is_organization_of p = false)
    (h : ∀ cur, s.default_group_plugin = some cur → cur.instDefaultGroupForm = true) :
    (group_fallback_step s p).2 = none := by
  unfold group_fallback_step
  by_cases hf : p.is_fallback
  · simp only [hf, if_true, ho, Bool.false_eq_true, if_false]
    cases hd : s.default_group_plugin with
    | none => rfl
    | some cur => simp [h cur hd]
  · simp [hf]

/-- Claim C6: two non-default fallback claimants (classes not inheriting the
axis's default form class) on the same axis make registration fail with the
axis's multiple-fallback error: the dataset axis, and the group and
organization axes — a group provider's axis chosen by its `is_organization`
flag, which defaults to `group_controller == "organization"` when the
attribute is missing.  Fallback claims on the two distinct group-side axes
do not conflict: such a pass succeeds. -/
theorem multiple_fallback_detection (p1 p2 : Provider) :
    (p1.is_fallback = true → p2.is_fallback = true → p1.instDefaultDatasetForm = false →
      p1.package_types.Nodup →
      ∃ s, register_package_plugins initialRegistry [p1, p2]
          = (s, some RegError.multipleDatasetFallback))
    ∧ (p1.is_fallback = true → p2.is_fallback = true →
      is_organization_of p1 = false → is_organization_of p2 = false →
      p1.instDefaultGroupForm = false → p1.group_types.Nodup →
      ∃ s, register_group_plugins initialRegistry [p1, p2]
          = (s, some RegError.multipleGroupFallback))
    ∧ (p1.is_fallback = true → p2.is_fallback = true →
      is_organization_of p1 = true → is_organization_of p2 = true →
      p1.instDefaultOrganizationForm = false → p1.group_types.Nodup →
      ∃ s, register_group_plugins initialRegistry [p1, p2]
          = (s, some RegError.multipleOrganizationFallback))
    ∧ (p1.is_fallback = true → p2.is_fallback = true →
      is_organization_of p1 = false → is_organization_of p2 = true →
      (p1.group_types ++ p2.group_types).Nodup →
      (register_group_plugins initialRegistry [p1, p2]).2 = none) := by
  refine ⟨?_, ?_, ?_, ?_⟩
  · intro hf1 hf2 hinst hnd
    cases hA : package_fallback_step initialRegistry p1 with
    | mk sA eA =>
    have heA : eA = none := by
      have := package_fallback_step_no_err initialRegistry p1
        (fun cur hc => by simp [initialRegistry] at hc)
      rw [hA] at this
      exact this
    subst heA
    have hplugA : sA.package_plugins = [] := by
      have := package_fallback_step_plugins initialRegistry p1
      rw [hA] at this
      exact this
    have hdefA : sA.default_package_plugin = some p1 := by
      have := package_fallback_step_default initialRegistry p1 (by rw [hA])
      rw [hA, if_pos hf1] at this
      exact this
    cases hB : insert_package_types p1 sA p1.package_types with
    | mk sB eB =>
    have hok := insert_package_types_ok p1 sA p1.package_types hnd
      (fun t' _ => by rw [hplugA]; rfl)
    rw [hB] at hok
    have heB : eB = none := hok.1
    subst heB
    have hdefB : sB.default_package_plugin = some p1 := by
      have := insert_package_types_default p1 sA p1.package_types
      rw [hB] at this
      rw [this, hdefA]
    have hconf := package_fallback_step_conflict sB p2 hf2 p1 hdefB hinst
    refine ⟨sB, register_package_plugins_err _ _ _ _ ?_⟩
    rw [register_package_list_cons_ok initialRegistry p1 [p2] sA sB hA hB]
    exact register_package_list_cons_err1 sB p2 [] sB _ hconf
  · intro hf1 hf2 ho1 ho2 hinst hnd
    cases hA : group_fallback_step initialRegistry p1 with
    | mk sA eA =>
    have heA : eA = none := by
      have := group_fallback_step_no_err initialRegistry p1
        (fun cur hc => by simp [initialRegistry] at hc)
        (fun cur hc => by simp [initialRegistry] at hc)
      rw [hA] at this
      exact this
    subst heA
    have htabA := group_fallback_step_tables initialRegistry p1
    rw [hA] at htabA
    have hdefA := group_fallback_step_defaults initialRegistry p1 (by rw [hA])
    rw [hA] at hdefA
    cases hB : insert_group_types p1 (group_controller_of p1) sA p1.group_types with
    | mk sB eB =>
    have hok := insert_group_types_ok p1 (group_controller_of p1) sA p1.group_types hnd
      (fun t' _ => by rw [htabA.1]; rfl)
    rw [hB] at hok
    subst hok
    have hdefB := insert_group_types_defaults p1 (group_controller_of p1) sA p1.group_types
    rw [hB] at hdefB
    have hdefB1 : sB.default_group_plugin = some p1 := by
      rw [hdefB.1, hdefA.1, if_pos ⟨hf1, ho1⟩]
    have hconf := group_fallback_step_conflict_grp sB p2 hf2 ho2 p1 hdefB1 hinst
    refine ⟨sB, register_group_plugins_err _ _ _ _ ?_⟩
    rw [register_group_list_cons_ok initialRegistry p1 [p2] sA sB hA hB]
    exact register_group_list_cons_err1 sB p2 [] sB _ hconf
  · intro hf1 hf2 ho1 ho2 hinst hnd
    cases hA : group_fallback_step initialRegistry p1 with
    | mk sA eA =>
    have heA : eA = none := by
      have := group_fallback_step_no_err initialRegistry p1
        (fun cur hc => by simp [initialRegistry] at hc)
        (fun cur hc => by simp [initialRegistry] at hc)
      rw [hA] at this
      exact this
    subst heA
    have htabA := group_fallback_step_tables initialRegistry p1
    rw [hA] at htabA
    have hdefA := group_fallback_step_defaults initialRegistry p1 (by rw [hA])
    rw [hA] at hdefA
    cases hB : insert_group_types p1 (group_controller_of p1) sA p1.group_types with
    | mk sB eB =>
    have hok := insert_group_types_ok p1 (group_controller_of p1) sA p1.group_types hnd
      (fun t' _ => by rw [htabA.1]; rfl)
    rw [hB] at hok
    subst hok
    have hdefB := insert_group_types_defaults p1 (group_controller_of p1) sA p1.group_types
    rw [hB] at hdefB
    have hdefB2 : sB.default_organization_plugin = some p1 := by
      rw [hdefB.2, hdefA.2, if_pos ⟨hf1, ho1⟩]
    have hconf := group_fallback_step_conflict_org sB p2 hf2 ho2 p1 hdefB2 hinst
    refine ⟨sB, register_group_plugins_err _ _ _ _ ?_⟩
    rw [register_group_list_cons_ok initialRegistry p1 [p2] sA sB hA hB]
    exact register_group_list_cons_err1 sB p2 [] sB _ hconf
  · intro hf1 hf2 ho1 ho2 hnd
    have hnd1 : p1.group_types.Nodup := hnd.of_append_left
    have hnd2 : p2.group_types.Nodup := hnd.of_append_right
    have hdisj : p1.group_types.Disjoint p2.group_types := (List.nodup_append.mp hnd).2.2
    cases hA : group_fallback_step initialRegistry p1 with
    | mk sA eA =>
    have heA : eA = none := by
      have := group_fallback_step_no_err_grp initialRegistry p1 ho1
        (fun cur hc => by simp [initialRegistry] at hc)
      rw [hA] at this
      exact this
    subst heA
    have htabA := group_fallback_step_tables initialRegistry p1
    rw [hA] at htabA
    have hdefA := group_fallback_step_defaults initialRegistry p1 (by rw [hA])
    rw [hA] at hdefA
    cases hB : insert_group_types p1 (group_controller_of p1) sA p1.group_types with
    | mk sB eB =>
    have hok := insert_group_types_ok p1 (group_controller_of p1) sA p1.group_types hnd1
      (fun t' _ => by rw [htabA.1]; rfl)
    rw [hB] at hok
    subst hok
    have hdefB := insert_group_types_defaults p1 (group_controller_of p1) sA p1.group_types
    rw [hB] at hdefB
    have hdefB2 : sB.default_organization_plugin = none := by
      rw [hdefB.2, hdefA.2, if_neg]
      · rfl
      · intro hx
        rw [ho1] at hx
        exact Bool.noConfusion hx.2
    cases hC : group_fallback_step sB p2 with
    | mk sC eC =>
    have heC : eC = none := by
      have := group_fallback_step_no_err_org sB p2 ho2
        (fun cur hc => by rw [hdefB2] at hc; exact Option.noConfusion hc)
      rw [hC] at this
      exact this
    subst heC
    have htabC := group_fallback_step_tables sB p2
    rw [hC] at htabC
    cases hD : insert_group_types p2 (group_controller_of p2) sC p2.group_types with
    | mk sD eD =>
    have habsD : ∀ t ∈ p2.group_types, dictLookup sC.group_plugins t = none := by
      intro t ht
      rw [htabC.1]
      have hnm : t ∉ p1.group_types := fun hm => hdisj hm ht
      have hfr := insert_group_types_lookup_notmem p1 (group_controller_of p1) sA
        p1.group_types t hnm
      rw [hB] at hfr
      rw [hfr.1, htabA.1]
      rfl
    have hok2 := insert_group_types_ok p2 (group_controller_of p2) sC p2.group_types hnd2 habsD
    rw [hD] at hok2
    subst hok2
    have hlist : register_group_list initialRegistry [p1, p2] = (sD, none) := by
      rw [register_group_list_cons_ok initialRegistry p1 [p2] sA sB hA hB,
        register_group_list_cons_ok sB p2 [] sC sD hC hD]
      rfl
    unfold register_group_plugins
    rw [hlist]

/-- A dataset-axis fallback claimant whose class does not inherit the
default forms. -/
def provF1 : Provider :=
  { name := "F1"
    is_fallback := true
    package_types := ["f1"]
    group_types := ["g1"]
    group_controller := none
    is_organization := none
    instDefaultDatasetForm := false
    instDefaultGroupForm := false
    instDefaultOrganizationForm := false }

/-- A second fallback claimant; on the group side it claims the
organization axis. -/
def provF2 : Provider :=
  { provF1 with
    name := "F2"
    package_types := ["f2"]
    group_types := ["g2"]
    is_organization := some true }

theorem multiple_fallback_detection_witness :
    (∃ s, register_package_plugins initialRegistry [provF1, provF2]
        = (s, some RegError.multipleDatasetFallback))
    ∧ (register_group_plugins initialRegistry [provF1, provF2]).2 = none := by
  have h := multiple_fallback_detection provF1 provF2
  exact ⟨h.1 rfl rfl rfl (by decide),
    h.2.2.2 rfl rfl (by decide) (by decide) (by decide)⟩

theorem insert_package_types_success_mem (p : Provider) (s : RegistryState)
    (ts : List String) (hok : (insert_package_types p s ts).2 = none) :
    ∀ t ∈ ts, dictLookup (insert_package_types p s ts).1.package_plugins t = some p := by
  induction ts generalizing s with
  | nil => exact fun t ht => absurd ht (List.not_mem_nil t)
  | cons t0 ts ih =>
    intro t ht
    cases h0 : dictLookup s.package_plugins t0 with
    | some q =>
      exfalso
      have hbad : (insert_package_types p s (t0 :: ts)).2
          = some (RegError.duplicatePackageType t0) := by
        conv_lhs => rw [insert_package_types]
        rw [h0]
      rw [hbad] at hok
      exact Option.noConfusion hok
    | none =>
      have hstep : insert_package_types p s (t0 :: ts)
          = insert_package_types p
              { s with package_plugins := dictInsert s.package_plugins t0 p } ts := by
        conv_lhs => rw [insert_package_types]
        rw [h0]
      rw [hstep] at hok ⊢
      rcases List.mem_cons.mp ht with he | hm
      · subst he
        exact insert_package_types_mono p _ ts t p (dictLookup_dictInsert_self _ _ _)
      · exact ih { s with package_plugins := dictInsert s.package_plugins t0 p } hok t hm

theorem register_package_list_append_inv (xs ys : List Provider) :
    ∀ s s' : RegistryState, register_package_list s (xs ++ ys) = (s', none) →
      ∃ sm, register_package_list s xs = (sm, none)
        ∧ register_package_list sm ys = (s', none) := by
  induction xs with
  | nil => exact fun s s' h => ⟨s, rfl, h⟩
  | cons p xs ih =>
    intro s s' h
    simp only [List.cons_append] at h
    obtain ⟨s1, s2, hA, hB, hC⟩ := register_package_list_cons_inv _ _ _ _ h
    obtain ⟨sm, h1, h2⟩ := ih s2 s' hC
    refine ⟨sm, ?_, h2⟩
    rw [register_package_list_cons_ok s p xs s1 s2 hA hB]
    exact h1

theorem register_package_list_not_ok_of_present (ps : List Provider) :
    ∀ s s' : RegistryState,
      (∃ p ∈ ps, ∃ t ∈ p.package_types, (dictLookup s.package_plugins t).isSome) →
      register_package_list s ps ≠ (s', none) := by
  induction ps with
  | nil =>
    intro s s' h _
    obtain ⟨p, hp, _⟩ := h
    exact absurd hp (List.not_mem_nil p)
  | cons p0 ps ih =>
    intro s s' hpres hsucc
    obtain ⟨s1, s2, hA, hB, hC⟩ := register_package_list_cons_inv _ _ _ _ hsucc
    have htab : s1.package_plugins = s.package_plugins := by
      have := package_fallback_step_plugins s p0
      rw [hA] at this
      exact this
    obtain ⟨p, hp, t, ht, hsome⟩ := hpres
    rcases List.mem_cons.mp hp with he | hm
    · subst he
      have herr := insert_package_types_err p s1 p.package_types
        ⟨t, ht, by rw [htab]; exact hsome⟩
      rw [hB] at herr
      obtain ⟨t', ht'⟩ := herr
      exact Option.noConfusion ht'
    · obtain ⟨v, hv⟩ := Option.isSome_iff_exists.mp hsome
      have hmono := insert_package_types_mono p0 s1 p0.package_types t v
        (by rw [htab]; exact hv)
      rw [hB] at hmono
      exact ih s2 s' ⟨p, hm, t, ht, by rw [hmono]; rfl⟩ hC

theorem register_group_list_append_inv (xs ys : List Provider) :
    ∀ s s' : RegistryState, register_group_list s (xs ++ ys) = (s', none) →
      ∃ sm, register_group_list s xs = (sm, none)
        ∧ register_group_list sm ys = (s', none) := by
  induction xs with
  | nil => exact fun s s' h => ⟨s, rfl, h⟩
  | cons p xs ih =>
    intro s s' h
    simp only [List.cons_append] at h
    obtain ⟨s1, s2, hA, hB, hC⟩ := register_group_list_cons_inv _ _ _ _ h
    obtain ⟨sm, h1, h2⟩ := ih s2 s' hC
    refine ⟨sm, ?_, h2⟩
    rw [register_group_list_cons_ok s p xs s1 s2 hA hB]
    exact h1

theorem register_group_list_not_ok_of_present (ps : List Provider) :
    ∀ s s' : RegistryState,
      (∃ p ∈ ps, ∃ t ∈ p.group_types, (dictLookup s.group_plugins t).isSome) →
      register_group_list s ps ≠ (s', none) := by
  induction ps with
  | nil =>
    intro s s' h _
    obtain ⟨p, hp, _⟩ := h
    exact absurd hp (List.not_mem_nil p)
  | cons p0 ps ih =>
    intro s s' hpres hsucc
    obtain ⟨s1, s2, hA, hB, hC⟩ := register_group_list_cons_inv _ _ _ _ hsucc
    have htab := group_fallback_step_tables s p0
    rw [hA] at htab
    obtain ⟨p, hp, t, ht, hsome⟩ := hpres
    rcases List.mem_cons.mp hp with he | hm
    · subst he
      have herr := insert_group_types_err p (group_controller_of p) s1 p.group_types
        ⟨t, ht, by rw [htab.1]; exact hsome⟩
      rw [hB] at herr
      obtain ⟨t', ht'⟩ := herr
      exact Option.noConfusion ht'
    · obtain ⟨v, hv⟩ := Option.isSome_iff_exists.mp hsome
      have hmono := insert_group_types_mono p0 (group_controller_of p0) s1 p0.group_types t v
        (by rw [htab.1]; exact hv)
      rw [hB] at hmono
      exact ih s2 s' ⟨p, hm, t, ht, by rw [hmono.1]; rfl⟩ hC

/-- Two minimal extension providers that both declare the group type `"ga"`. -/
def provGA : Provider :=
  { name := "GA"
    is_fallback := false
    package_types := []
    group_types := ["ga"]
    group_controller := none
    is_organization := none
    instDefaultDatasetForm := false
    instDefaultGroupForm := false
    instDefaultOrganizationForm := false }

def provGB : Provider := { provGA with name := "GB" }

/-- Claim C1 counterexample: on either axis, registering two providers that
both declare one type-string (`"a"` on the dataset axis, `"ga"` on the
combined group+organization axis) fails with the duplicate-registration
error, but the axis's table is NOT exactly as it was before the failing
call: the first provider's insertion remains observable after the failure. -/
theorem duplicate_registration_partial_mutation_cex :
    (register_package_plugins initialRegistry [provA, provB]).2
        = some (RegError.duplicatePackageType "a")
    ∧ (register_package_plugins initialRegistry [provA, provB]).1.package_plugins
        ≠ initialRegistry.package_plugins
    ∧ (register_group_plugins initialRegistry [provGA, provGB]).2
        = some (RegError.duplicateGroupType "ga")
    ∧ (register_group_plugins initialRegistry [provGA, provGB]).1.group_plugins
        ≠ initialRegistry.group_plugins :=
  ⟨by decide, by decide, by decide, by decide⟩

/-- Claim C1 as amended: for every registration pass in which two providers
declare the same type-string within one axis — the dataset axis or the
combined group+organization axis — registration fails: a pass containing two
such providers never returns without error (parts one and two, for arbitrary
surrounding providers).  When the pass reaches the duplicate before any
fallback conflict, the error is the axis's `DuplicateRegistration`
(`ValueError`), and the entries inserted before the failure remain in the
table — the failure is not all-or-nothing (parts three and four). -/
theorem duplicate_registration_aborts (l1 l2 l3 : List Provider) (p1 p2 : Provider)
    (t : String) :
    (t ∈ p1.package_types → t ∈ p2.package_types →
      (register_package_plugins initialRegistry (l1 ++ p1 :: (l2 ++ p2 :: l3))).2 ≠ none)
    ∧ (t ∈ p1.group_types → t ∈ p2.group_types →
      (register_group_plugins initialRegistry (l1 ++ p1 :: (l2 ++ p2 :: l3))).2 ≠ none)
    ∧ (t ∈ p1.package_types → t ∈ p2.package_types → p1.package_types.Nodup →
      ¬(p1.is_fallback = true ∧ p2.is_fallback = true
          ∧ p1.instDefaultDatasetForm = false) →
      (∃ t', (register_package_plugins initialRegistry [p1, p2]).2
          = some (RegError.duplicatePackageType t'))
      ∧ dictLookup (register_package_plugins initialRegistry [p1, p2]).1.package_plugins t
          = some p1)
    ∧ (t ∈ p1.group_types → t ∈ p2.group_types → p1.group_types.Nodup →
      ¬(p1.is_fallback = true ∧ p2.is_fallback = true
          ∧ is_organization_of p1 = is_organization_of p2
          ∧ (if is_organization_of p2 = true then p1.instDefaultOrganizationForm = false
             else p1.instDefaultGroupForm = false)) →
      (∃ t', (register_group_plugins initialRegistry [p1, p2]).2
          = some (RegError.duplicateGroupType t'))
      ∧ dictLookup (register_group_plugins initialRegistry [p1, p2]).1.group_plugins t
          = some p1) := by
  refine ⟨?_, ?_, ?_, ?_⟩
  · intro h1 h2 heq
    cases hr : register_package_plugins initialRegistry (l1 ++ p1 :: (l2 ++ p2 :: l3)) with
    | mk sr er =>
    rw [hr] at heq
    have her : er = none := heq
    rw [her] at hr
    obtain ⟨s0, hlist, _⟩ := register_package_plugins_ok_inv _ _ _ hr
    obtain ⟨sm, _, hrest⟩ :=
      register_package_list_append_inv l1 (p1 :: (l2 ++ p2 :: l3)) initialRegistry s0 hlist
    obtain ⟨sA, sB, hA, hB, hC⟩ := register_package_list_cons_inv _ _ _ _ hrest
    have hpresent := insert_package_types_success_mem p1 sA p1.package_types
      (by rw [hB]) t h1
    rw [hB] at hpresent
    exact register_package_list_not_ok_of_present (l2 ++ p2 :: l3) sB s0
      ⟨p2, by simp, t, h2, by rw [hpresent]; rfl⟩ hC
  · intro h1 h2 heq
    cases hr : register_group_plugins initialRegistry (l1 ++ p1 :: (l2 ++ p2 :: l3)) with
    | mk sr er =>
    rw [hr] at heq
    have her : er = none := heq
    rw [her] at hr
    obtain ⟨s0, hlist, _⟩ := register_group_plugins_ok_inv _ _ _ hr
    obtain ⟨sm, _, hrest⟩ :=
      register_group_list_append_inv l1 (p1 :: (l2 ++ p2 :: l3)) initialRegistry s0 hlist
    obtain ⟨sA, sB, hA, hB, hC⟩ := register_group_list_cons_inv _ _ _ _ hrest
    have hpresent := insert_group_types_success_mem p1 (group_controller_of p1) sA
      p1.group_types (by rw [hB]) t h1
    rw [hB] at hpresent
    exact register_group_list_not_ok_of_present (l2 ++ p2 :: l3) sB s0
      ⟨p2, by simp, t, h2, by rw [hpresent.1]; rfl⟩ hC
  · intro h1 h2 hnd hfb
    cases hA : package_fallback_step initialRegistry p1 with
    | mk sA eA =>
    have heA : eA = none := by
      have := package_fallback_step_no_err initialRegistry p1
        (fun cur hc => by simp [initialRegistry] at hc)
      rw [hA] at this
      exact this
    subst heA
    have hplugA : sA.package_plugins = [] := by
      have := package_fallback_step_plugins initialRegistry p1
      rw [hA] at this
      exact this
    have hdefA : sA.default_package_plugin = if p1.is_fallback then some p1 else none := by
      have := package_fallback_step_default initialRegistry p1 (by rw [hA])
      rw [hA] at this
      exact this
    cases hB : insert_package_types p1 sA p1.package_types with
    | mk sB eB =>
    have hok := insert_package_types_ok p1 sA p1.package_types hnd
      (fun t' _ => by rw [hplugA]; rfl)
    rw [hB] at hok
    have heB : eB = none := hok.1
    subst heB
    have hlookB : dictLookup sB.package_plugins t = some p1 := hok.2 t h1
    have hdefB : sB.default_package_plugin = sA.default_package_plugin := by
      have := insert_package_types_default p1 sA p1.package_types
      rw [hB] at this
      exact this
    cases hC : package_fallback_step sB p2 with
    | mk sC eC =>
    have heC : eC = none := by
      by_cases hf2 : p2.is_fallback
      · have hcur : ∀ cur, sB.default_package_plugin = some cur →
            cur.instDefaultDatasetForm = true := by
          intro cur hc
          rw [hdefB, hdefA] at hc
          by_cases hf1 : p1.is_fallback
          · rw [if_pos hf1] at hc
            injection hc with hcp
            subst hcp
            cases hinst : p1.instDefaultDatasetForm with
            | false => exact absurd ⟨hf1, hf2, hinst⟩ hfb
            | true => rfl
          · rw [if_neg hf1] at hc
            exact Option.noConfusion hc
        have := package_fallback_step_no_err sB p2 hcur
        rw [hC] at this
        exact this
      · have hstep := package_fallback_step_not_fallback sB p2 (by simpa using hf2)
        rw [hstep] at hC
        exact ((Prod.mk.injEq _ _ _ _).mp hC).2.symm
    subst heC
    have hplugC : sC.package_plugins = sB.package_plugins := by
      have := package_fallback_step_plugins sB p2
      rw [hC] at this
      exact this
    have hlookC : dictLookup sC.package_plugins t = some p1 := by
      rw [hplugC]
      exact hlookB
    cases hD : insert_package_types p2 sC p2.package_types with
    | mk sD eD =>
    have herr := insert_package_types_err p2 sC p2.package_types
      ⟨t, h2, by rw [hlookC]; rfl⟩
    rw [hD] at herr
    obtain ⟨t', ht'⟩ := herr
    subst ht'
    have hmono := insert_package_types_mono p2 sC p2.package_types t p1 hlookC
    rw [hD] at hmono
    have hgoal : register_package_plugins initialRegistry [p1, p2]
        = (sD, some (RegError.duplicatePackageType t')) := by
      apply register_package_plugins_err
      rw [register_package_list_cons_ok initialRegistry p1 [p2] sA sB hA hB]
      exact register_package_list_cons_err2 sB p2 [] sC sD _ hC hD
    rw [hgoal]
    exact ⟨⟨t', rfl⟩, hmono⟩
  · intro h1 h2 hnd hfb
    cases hA : group_fallback_step initialRegistry p1 with
    | mk sA eA =>
    have heA : eA = none := by
      have := group_fallback_step_no_err initialRegistry p1
        (fun cur hc => by simp [initialRegistry] at hc)
        (fun cur hc => by simp [initialRegistry] at hc)
      rw [hA] at this
      exact this
    subst heA
    have htabA := group_fallback_step_tables initialRegistry p1
    rw [hA] at htabA
    have hdefA := group_fallback_step_defaults initialRegistry p1 (by rw [hA])
    rw [hA] at hdefA
    cases hB : insert_group_types p1 (group_controller_of p1) sA p1.group_types with
    | mk sB eB =>
    have hok := insert_group_types_ok p1 (group_controller_of p1) sA p1.group_types hnd
      (fun t' _ => by rw [htabA.1]; rfl)
    rw [hB] at hok
    subst hok
    have hmem := insert_group_types_success_mem p1 (group_controller_of p1) sA
      p1.group_types (by rw [hB]) t h1
    rw [hB] at hmem
    have hdefB := insert_group_types_defaults p1 (group_controller_of p1) sA p1.group_types
    rw [hB] at hdefB
    cases hC : group_fallback_step sB p2 with
    | mk sC eC =>
    have heC : eC = none := by
      by_cases hf2 : p2.is_fallback
      · by_cases ho2 : is_organization_of p2
        · have hcur : ∀ cur, sB.default_organization_plugin = some cur →
              cur.instDefaultOrganizationForm = true := by
            intro cur hc
            rw [hdefB.2, hdefA.2] at hc
            by_cases hcond : p1.is_fallback = true ∧ is_organization_of p1 = true
            · rw [if_pos hcond] at hc
              injection hc with hcp
              subst hcp
              cases hinst : p1.instDefaultOrganizationForm with
              | false =>
                exact absurd
                  ⟨hcond.1, hf2, hcond.2.trans ho2.symm, by rw [if_pos ho2]; exact hinst⟩ hfb
              | true => rfl
            · rw [if_neg hcond] at hc
              exact Option.noConfusion hc
          have := group_fallback_step_no_err_org sB p2 ho2 hcur
          rw [hC] at this
          exact this
        · have ho2' : is_organization_of p2 = false := by simpa using ho2
          have hcur : ∀ cur, sB.default_group_plugin = some cur →
              cur.instDefaultGroupForm = true := by
            intro cur hc
            rw [hdefB.1, hdefA.1] at hc
            by_cases hcond : p1.is_fallback = true ∧ is_organization_of p1 = false
            · rw [if_pos hcond] at hc
              injection hc with hcp
              subst hcp
              cases hinst : p1.instDefaultGroupForm with
              | false =>
                exact absurd
                  ⟨hcond.1, hf2, hcond.2.trans ho2'.symm, by simp [ho2', hinst]⟩ hfb
              | true => rfl
            · rw [if_neg hcond] at hc
              exact Option.noConfusion hc
          have := group_fallback_step_no_err_grp sB p2 ho2' hcur
          rw [hC] at this
          exact this
      · have hstep := group_fallback_step_not_fallback sB p2 (by simpa using hf2)
        rw [hstep] at hC
        exact ((Prod.mk.injEq _ _ _ _).mp hC).2.symm
    subst heC
    have htabC := group_fallback_step_tables sB p2
    rw [hC] at htabC
    cases hD : insert_group_types p2 (group_controller_of p2) sC p2.group_types with
    | mk sD eD =>
    have herr := insert_group_types_err p2 (group_controller_of p2) sC p2.group_types
      ⟨t, h2, by rw [htabC.1, hmem.1]; rfl⟩
    rw [hD] at herr
    obtain ⟨t', ht'⟩ := herr
    subst ht'
    have hmono := insert_group_types_mono p2 (group_controller_of p2) sC p2.group_types t p1
      (by rw [htabC.1]; exact hmem.1)
    rw [hD] at hmono
    have hgoal : register_group_plugins initialRegistry [p1, p2]
        = (sD, some (RegError.duplicateGroupType t')) := by
      apply register_group_plugins_err
      rw [register_group_list_cons_ok initialRegistry p1 [p2] sA sB hA hB]
      exact register_group_list_cons_err2 sB p2 [] sC sD _ hC hD
    rw [hgoal]
    exact ⟨⟨t', rfl⟩, hmono.1⟩

theorem duplicate_registration_aborts_witness :
    (register_package_plugins initialRegistry ([] ++ provA :: ([] ++ provB :: []))).2 ≠ none
    ∧ (register_group_plugins initialRegistry ([] ++ provGA :: ([] ++ provGB :: []))).2 ≠ none
    ∧ ((∃ t', (register_package_plugins initialRegistry [provA, provB]).2
          = some (RegError.duplicatePackageType t'))
        ∧ dictLookup
            (register_package_plugins initialRegistry [provA, provB]).1.package_plugins
            "a" = some provA)
    ∧ ((∃ t', (register_group_plugins initialRegistry [provGA, provGB]).2
          = some (RegError.duplicateGroupType t'))
        ∧ dictLookup
            (register_group_plugins initialRegistry [provGA, provGB]).1.group_plugins
            "ga" = some provGA) := by
  have ha := duplicate_registration_aborts [] [] [] provA provB "a"
  have hb := duplicate_registration_aborts [] [] [] provGA provGB "ga"
  exact ⟨ha.1 (by decide) (by decide), hb.2.1 (by decide) (by decide),
    ha.2.2.1 (by decide) (by decide) (by decide) (by decide),
    hb.2.2.2 (by decide) (by decide) (by decide) (by decide)⟩

theorem default_install_at_registration_end_witness :
    ((lookup_package_plugin (register_package_plugins initialRegistry [provD]).1 none).1
        = some DefaultDatasetFormInst
      ∧ (lookup_package_plugin
          (lookup_package_plugin
            (register_package_plugins initialRegistry [provD]).1 none).2 none).1
          = some DefaultDatasetFormInst)
    ∧ ((register_group_plugins initialRegistry [provF1]).1.default_organization_plugin
        = some DefaultOrganizationFormInst
      ∧ (dictLookup (register_group_plugins initialRegistry [provF1]).1.group_plugins
            "organization" = none →
          (lookup_group_plugin (register_group_plugins initialRegistry [provF1]).1
            (some "organization")).1 = some DefaultOrganizationFormInst))
    ∧ ((lookup_group_plugin (register_group_plugins initialRegistry [provG]).1 none).1
        = some DefaultGroupFormInst
      ∧ (lookup_group_plugin
          (lookup_group_plugin
            (register_group_plugins initialRegistry [provG]).1 none).2 none).1
          = some DefaultGroupFormInst) := by
  have ha := default_install_at_registration_end [provD] [provF1]
    (register_package_plugins initialRegistry [provD]).1
    (register_group_plugins initialRegistry [provF1]).1 (by decide) (by decide)
  have hb := default_install_at_registration_end [provD] [provG]
    (register_package_plugins initialRegistry [provD]).1
    (register_group_plugins initialRegistry [provG]).1 (by decide) (by decide)
  exact ⟨ha.1 (by decide), ha.2.2 (by decide), hb.2.1 (by decide)⟩
